import Mathlib

/-!
# EMS frontend: session store, HTTP client pipeline and route gate

A shallow embedding of the session and request plumbing of the EMS React
frontend:

* `services/api.js`      : the axios request and response interceptors;
* `context/AuthContext.js` : `AuthProvider` (React state, `login`, `logout`,
  the mount effect `checkLoggedIn`, the derived context value);
* `components/common/ProtectedRoute.js` : the route gate;
* `App.js`               : the route table.

Browser state (`localStorage`, `window.location.href`) and React state are
explicit records that the operations pass along.  A promise is an `Except`:
`.ok` is a fulfilled promise, `.error` a rejected one.  JavaScript truthiness
is kept: the empty string is falsy.
-/

set_option autoImplicit false

namespace EMS

/-! ## JavaScript values used by the session code -/

/-- Truthiness of a JavaScript string: every string but the empty one. -/
def strTruthy (s : String) : Bool := s != ""

/-- Truthiness of a value that is `null` or a string (`localStorage.getItem`,
the `token` React state). -/
def truthy : Option String → Bool
  | none => false
  | some s => strTruthy s

/-! ## Browser state -/

/-- Key and value pairs of `localStorage`, or the entries of a headers object. -/
abbrev Storage := List (String × String)

/-- `localStorage.getItem(k)`: `null` when the key is absent. -/
def getItem (s : Storage) (k : String) : Option String :=
  (s.find? (fun p => p.1 == k)).map (fun p => p.2)

/-- `localStorage.removeItem(k)`. -/
def removeItem (s : Storage) (k : String) : Storage :=
  s.filter (fun p => p.1 != k)

/-- `localStorage.setItem(k, v)`, also `obj[k] = v` on a headers object. -/
def setItem (s : Storage) (k v : String) : Storage :=
  if s.any (fun p => p.1 == k) then
    s.map (fun p => if p.1 == k then (k, v) else p)
  else
    s ++ [(k, v)]

/-- The part of the browser the session code reads and writes. -/
structure Browser where
  localStorage : Storage
  href : String
  deriving DecidableEq, Repr

/-! ## Identity and the React state of `AuthProvider` -/

/-- The identity object delivered by the backend (`user`). -/
structure User where
  id : Nat
  role : String
  name : Option String := none
  email : Option String := none
  department : Option String := none
  position : Option String := none
  deriving DecidableEq, Repr

/-- The four `useState` cells of `AuthProvider`. -/
structure AuthState where
  user : Option User
  token : Option String
  loading : Bool
  error : Option String
  deriving DecidableEq, Repr

/-- The derived fields of the context value that the gate reads. -/
structure AuthContextValue where
  isAuthenticated : Bool
  isAdmin : Bool
  loading : Bool
  deriving DecidableEq, Repr

/-- `isAuthenticated: !!token`. -/
def isAuthenticated (a : AuthState) : Bool := truthy a.token

/-- `isAdmin: user?.role === 'admin'`. -/
def isAdmin (a : AuthState) : Bool :=
  match a.user with
  | none => false
  | some u => u.role == "admin"

/-- The `value` handed to `AuthContext.Provider`, restricted to the gate's fields. -/
def contextValue (a : AuthState) : AuthContextValue :=
  { isAuthenticated := isAuthenticated a, isAdmin := isAdmin a, loading := a.loading }

/-! ## The route gate (`ProtectedRoute.js`) -/

/-- What `ProtectedRoute` returns. -/
inductive Element where
  | spinner
  | navigate (target : String)
  | outlet
  deriving DecidableEq, Repr

/-- `ProtectedRoute({ requireAdmin = false })`. -/
def ProtectedRoute (requireAdmin : Bool) (ctx : AuthContextValue) : Element :=
  if ctx.loading then
    Element.spinner
  else if !ctx.isAuthenticated then
    Element.navigate "/login"
  else if requireAdmin && !ctx.isAdmin then
    Element.navigate "/unauthorized"
  else
    Element.outlet

/-! ## The HTTP client (`services/api.js`) -/

/-- The axios request configuration seen by the request interceptor. -/
structure RequestConfig where
  method : String
  url : String
  headers : Storage
  data : Storage := []
  params : Storage := []
  deriving DecidableEq, Repr

/-- A response of the backend with body `data`. -/
structure Response (α : Type) where
  status : Int
  data : α
  deriving DecidableEq, Repr

/-- The body of an error response, `{ success: false, error? }`. -/
structure ErrorBody where
  error : Option String
  deriving DecidableEq, Repr

/-- The `response` property of an axios error: absent when no answer arrived. -/
structure ErrorResponse where
  status : Int
  data : Option ErrorBody
  deriving DecidableEq, Repr

/-- The error object a rejected request carries. -/
structure AxiosError where
  message : String
  response : Option ErrorResponse
  deriving DecidableEq, Repr

/-- The fulfilled handler of `api.interceptors.request.use`. -/
def requestInterceptor (b : Browser) (config : RequestConfig) : RequestConfig :=
  match getItem b.localStorage "token" with
  | some token =>
    if strTruthy token then
      { config with headers := setItem config.headers "Authorization" ("Bearer " ++ token) }
    else
      config
  | none => config

/-- The fulfilled handler of `api.interceptors.response.use`: `return response`. -/
def responseFulfilled {α : Type} (response : Response α) : Response α := response

/-- The test `error.response && error.response.status === 401`. -/
def isUnauthorized (error : AxiosError) : Bool :=
  match error.response with
  | some r => r.status == 401
  | none => false

/-- The rejected handler of `api.interceptors.response.use`: on status 401 both
session keys are removed and `window.location.href` is set to `/login`; in
every case the promise is rejected with the same error. -/
def responseRejected {α : Type} (b : Browser) (error : AxiosError) :
    Browser × Except AxiosError (Response α) :=
  if isUnauthorized error then
    ({ localStorage := removeItem (removeItem b.localStorage "token") "user",
       href := "/login" },
     Except.error error)
  else
    (b, Except.error error)

/-- The response stage applied to the outcome of a request. -/
def responseStage {α : Type} (b : Browser) (outcome : Except AxiosError (Response α)) :
    Browser × Except AxiosError (Response α) :=
  match outcome with
  | Except.ok response => (b, Except.ok (responseFulfilled response))
  | Except.error error => responseRejected b error

/-- The instance defaults of `axios.create`. -/
def defaultHeaders : Storage := [("Content-Type", "application/json")]

/-- A request through `api`: the request stage builds the configuration that is
sent, the backend (`server`) answers it, the response stage handles the answer. -/
def apiRequest {α : Type} (server : RequestConfig → Except AxiosError (Response α))
    (b : Browser) (config : RequestConfig) : Browser × Except AxiosError (Response α) :=
  responseStage b (server (requestInterceptor b config))

/-- The form values handed to `login`. -/
structure Credentials where
  email : String
  password : String
  deriving DecidableEq, Repr

/-- The body of a successful `POST /auth/login` or `POST /auth/register`. -/
structure LoginData where
  token : String
  user : User
  deriving DecidableEq, Repr

/-- The body of a successful `GET /auth/me`: `{ success, data }`. -/
structure ProfileBody where
  data : User
  deriving DecidableEq, Repr

/-- The configuration of `api.post('/auth/login', credentials)`. -/
def loginRequest (credentials : Credentials) : RequestConfig :=
  { method := "post", url := "/auth/login", headers := defaultHeaders,
    data := [("email", credentials.email), ("password", credentials.password)] }

/-- The configuration of `api.get('/auth/me')`. -/
def profileRequest : RequestConfig :=
  { method := "get", url := "/auth/me", headers := defaultHeaders }

/-- `authService.login`. -/
def authService_login (server : RequestConfig → Except AxiosError (Response LoginData))
    (b : Browser) (credentials : Credentials) :
    Browser × Except AxiosError (Response LoginData) :=
  apiRequest server b (loginRequest credentials)

/-- `authService.getProfile`. -/
def authService_getProfile
    (server : RequestConfig → Except AxiosError (Response ProfileBody))
    (b : Browser) : Browser × Except AxiosError (Response ProfileBody) :=
  apiRequest server b profileRequest

/-! ## The session store (`context/AuthContext.js`) -/

/-- Browser state together with the React state of `AuthProvider`. -/
structure App where
  browser : Browser
  auth : AuthState
  deriving DecidableEq, Repr

/-- What `login` resolves to: `{ success: true }` or `{ success: false, error }`. -/
structure LoginResult where
  success : Bool
  error : Option String
  deriving DecidableEq, Repr

/-- The payload of a decoded token; `exp` is `undefined` when the claim is missing. -/
structure Decoded where
  exp : Option Int
  deriving DecidableEq, Repr

/-- Library functions the session store calls: `JSON.stringify` on an identity,
`jwtDecode` (`none` when it throws) and `Date.now()` in milliseconds. -/
structure Env where
  stringify : User → String
  jwtDecode : String → Option Decoded
  nowMs : Nat

/-- `err.response?.data?.error`. -/
def serverError (err : AxiosError) : Option String :=
  match err.response with
  | none => none
  | some r =>
    match r.data with
    | none => none
    | some body => body.error

/-- `err.response?.data?.error || fallback`. -/
def errorMessage (err : AxiosError) (fallback : String) : String :=
  match serverError err with
  | some msg => if strTruthy msg then msg else fallback
  | none => fallback

/-- The `catch` block of `login`. -/
def loginCatch (err : AxiosError) (s : App) : App × Except AxiosError LoginResult :=
  ({ s with auth := { s.auth with loading := false,
                                  error := some (errorMessage err "Login failed") } },
   Except.ok { success := false, error := some (errorMessage err "Login failed") })

/-- `login(credentials)`: the `try` block, with the `catch` block on rejection. -/
def login (env : Env) (server : RequestConfig → Except AxiosError (Response LoginData))
    (credentials : Credentials) (s : App) : App × Except AxiosError LoginResult :=
  let a1 : AuthState := { s.auth with loading := true, error := none }
  match authService_login server s.browser credentials with
  | (b1, Except.ok response) =>
    let token := response.data.token
    let user := response.data.user
    let ls := setItem (setItem b1.localStorage "token" token) "user" (env.stringify user)
    ({ browser := { b1 with localStorage := ls },
       auth := { a1 with token := some token, user := some user, loading := false } },
     Except.ok { success := true, error := none })
  | (b1, Except.error err) => loginCatch err { browser := b1, auth := a1 }

/-- The configuration of `api.post('/auth/register', userData)`. -/
def registerRequest (userData : Storage) : RequestConfig :=
  { method := "post", url := "/auth/register", headers := defaultHeaders, data := userData }

/-- `authService.register`. -/
def authService_register (server : RequestConfig → Except AxiosError (Response LoginData))
    (b : Browser) (userData : Storage) :
    Browser × Except AxiosError (Response LoginData) :=
  apiRequest server b (registerRequest userData)

/-- The `catch` block of `register`. -/
def registerCatch (err : AxiosError) (s : App) : App × Except AxiosError LoginResult :=
  ({ s with auth := { s.auth with loading := false,
                                  error := some (errorMessage err "Registration failed") } },
   Except.ok { success := false, error := some (errorMessage err "Registration failed") })

/-- `register(userData)`. -/
def register (env : Env) (server : RequestConfig → Except AxiosError (Response LoginData))
    (userData : Storage) (s : App) : App × Except AxiosError LoginResult :=
  let a1 : AuthState := { s.auth with loading := true, error := none }
  match authService_register server s.browser userData with
  | (b1, Except.ok response) =>
    let token := response.data.token
    let user := response.data.user
    let ls := setItem (setItem b1.localStorage "token" token) "user" (env.stringify user)
    ({ browser := { b1 with localStorage := ls },
       auth := { a1 with token := some token, user := some user, loading := false } },
     Except.ok { success := true, error := none })
  | (b1, Except.error err) => registerCatch err { browser := b1, auth := a1 }

/-- `logout()`. -/
def logout (s : App) : App :=
  { browser := { s.browser with
      localStorage := removeItem (removeItem s.browser.localStorage "token") "user" },
    auth := { s.auth with token := none, user := none } }

/-- `decoded.exp < Date.now() / 1000`; a comparison with `undefined` is false. -/
def expired (decoded : Decoded) (nowMs : Nat) : Bool :=
  match decoded.exp with
  | none => false
  | some exp => decide ((exp : ℚ) < (nowMs : ℚ) / 1000)

/-- The mount effect `checkLoggedIn` of `AuthProvider`. -/
def checkLoggedIn (env : Env)
    (server : RequestConfig → Except AxiosError (Response ProfileBody)) (s : App) : App :=
  let s1 : App :=
    match s.auth.token with
    | none => s
    | some token =>
      if strTruthy token then
        match env.jwtDecode token with
        | some decoded =>
          if expired decoded env.nowMs then
            logout s
          else
            match authService_getProfile server s.browser with
            | (b1, Except.ok response) =>
              { browser := b1, auth := { s.auth with user := some response.data.data } }
            | (b1, Except.error _) => logout { s with browser := b1 }
        | none => logout s
      else
        s
  { s1 with auth := { s1.auth with loading := false } }

/-- The React state of a freshly mounted `AuthProvider`. -/
def mount (b : Browser) : App :=
  { browser := b,
    auth := { user := none, token := getItem b.localStorage "token",
              loading := true, error := none } }

/-- Loading the document: `AuthProvider` mounts and its effect runs. -/
def pageLoad (env : Env)
    (server : RequestConfig → Except AxiosError (Response ProfileBody)) (b : Browser) : App :=
  checkLoggedIn env server (mount b)

/-! ## The route table (`App.js`) -/

/-- The page components. -/
inductive Page where
  | Login | Dashboard | Profile | Documents | Locations | HelpCenter
  | PaymentRecords | EmployeePayments | Employees | Unauthorized | NotFound
  deriving DecidableEq, Repr

/-- What the router shows for a location. -/
inductive Screen where
  | page (p : Page)
  | spinner
  | redirect (target : String)
  deriving DecidableEq, Repr

/-- A route nested under `<Route element={<ProtectedRoute ... />}>`. -/
def gated (requireAdmin : Bool) (ctx : AuthContextValue) (p : Page) : Screen :=
  match ProtectedRoute requireAdmin ctx with
  | Element.outlet => Screen.page p
  | Element.spinner => Screen.spinner
  | Element.navigate target => Screen.redirect target

/-- The `<Routes>` of `App`. -/
def routes (ctx : AuthContextValue) (path : String) : Screen :=
  if path == "/login" then Screen.page Page.Login
  else if path == "/dashboard" then gated false ctx Page.Dashboard
  else if path == "/profile" then gated false ctx Page.Profile
  else if path == "/documents" then gated false ctx Page.Documents
  else if path == "/locations" then gated false ctx Page.Locations
  else if path == "/help-center" then gated false ctx Page.HelpCenter
  else if path == "/payment-records" then gated false ctx Page.PaymentRecords
  else if path == "/my-payments" then gated false ctx Page.EmployeePayments
  else if path == "/employees" then gated true ctx Page.Employees
  else if path == "/" then Screen.redirect "/dashboard"
  else if path == "/unauthorized" then Screen.page Page.Unauthorized
  else Screen.page Page.NotFound

/-- The view on screen in a state of the application. -/
def currentView (s : App) : Screen :=
  routes (contextValue s.auth) s.browser.href

/-! ## A request answered with status 401, from the interceptor to the next document -/

/-- What the code that awaited the request does with the rejected promise.  The
pages catch it, log and show a toast, touching only their own state; the session
store catches it in `login`, `register` and `checkLoggedIn`. -/
inductive CallerReaction where
  | pageCatch
  | loginCatch
  | registerCatch
  | checkLoggedInCatch
  deriving DecidableEq, Repr

/-- The effect of the caller's handler on the application state. -/
def CallerReaction.run (r : CallerReaction) (err : AxiosError) (s : App) : App :=
  match r with
  | CallerReaction.pageCatch => s
  | CallerReaction.loginCatch => (EMS.loginCatch err s).1
  | CallerReaction.registerCatch => (EMS.registerCatch err s).1
  | CallerReaction.checkLoggedInCatch =>
    { (logout s) with auth := { (logout s).auth with loading := false } }

/-- A rejected request from the rejected handler of the response stage to the
end: the handler runs and the caller reacts to the rejected promise; when the
handler has assigned `window.location.href`, the document it names is then
loaded and the application mounts again. -/
def afterRejected (env : Env)
    (server : RequestConfig → Except AxiosError (Response ProfileBody))
    (reaction : CallerReaction) (error : AxiosError) (s : App) : App :=
  let b1 := (@responseRejected Unit s.browser error).1
  let s2 := reaction.run error { s with browser := b1 }
  if isUnauthorized error then pageLoad env server s2.browser else s2

/-! ## Rehydration with the requests it sends -/

/-- The effect `checkLoggedIn` together with the request configurations it hands
to the backend, in the order they are sent. -/
def checkLoggedInTraced (env : Env)
    (server : RequestConfig → Except AxiosError (Response ProfileBody)) (s : App) :
    App × List RequestConfig :=
  let r : App × List RequestConfig :=
    match s.auth.token with
    | none => (s, [])
    | some token =>
      if strTruthy token then
        match env.jwtDecode token with
        | some decoded =>
          if expired decoded env.nowMs then
            (logout s, [])
          else
            match authService_getProfile server s.browser with
            | (b1, Except.ok response) =>
              ({ browser := b1, auth := { s.auth with user := some response.data.data } },
               [requestInterceptor s.browser profileRequest])
            | (b1, Except.error _) =>
              (logout { s with browser := b1 },
               [requestInterceptor s.browser profileRequest])
        | none => (logout s, [])
      else
        (s, [])
  ({ r.1 with auth := { r.1.auth with loading := false } }, r.2)

/-- Rehydration at process start: `AuthProvider` mounts on the persisted storage
and `checkLoggedIn` runs; the result is the state at the end and the requests
that were sent. -/
def rehydrate (env : Env)
    (server : RequestConfig → Except AxiosError (Response ProfileBody)) (b : Browser) :
    App × List RequestConfig :=
  checkLoggedInTraced env server (mount b)

/-! ## The session store step by step

`checkLoggedIn`, `login` and `register` are `async`: each runs up to its
`await`, and the rest runs when the request is answered, on the state of that
moment.  Nothing cancels a request, so other steps can come in between. -/

/-- The part of `checkLoggedIn` before `await authService.getProfile()`: the
state it leaves and whether the profile request was sent, in which case the
function is suspended and has changed nothing yet. -/
def checkLoggedInStart (env : Env) (s : App) : App × Bool :=
  match s.auth.token with
  | none => ({ s with auth := { s.auth with loading := false } }, false)
  | some token =>
    if strTruthy token then
      match env.jwtDecode token with
      | some decoded =>
        if expired decoded env.nowMs then
          ({ (logout s) with auth := { (logout s).auth with loading := false } }, false)
        else
          (s, true)
      | none => ({ (logout s) with auth := { (logout s).auth with loading := false } }, false)
    else
      ({ s with auth := { s.auth with loading := false } }, false)

/-- The part of `checkLoggedIn` after the `await`, run on the state at the time
the answer arrives: the response stage, then `setUser` or the `catch` block with
its `logout()`, then `setLoading(false)`. -/
def checkLoggedInSettle (outcome : Except AxiosError (Response ProfileBody)) (s : App) :
    App :=
  match responseStage s.browser outcome with
  | (b1, Except.ok response) =>
    { browser := b1,
      auth := { s.auth with user := some response.data.data, loading := false } }
  | (b1, Except.error _) =>
    { (logout { s with browser := b1 }) with
      auth := { (logout { s with browser := b1 }).auth with loading := false } }

/-- The part of `login` and of `register` before the `await`:
`setLoading(true); setError(null)`. -/
def loginStart (s : App) : App :=
  { s with auth := { s.auth with loading := true, error := none } }

/-- The part of `login` after `await authService.login(credentials)`, run on the
state at the time the answer arrives. -/
def loginSettle (env : Env) (outcome : Except AxiosError (Response LoginData)) (s : App) :
    App × Except AxiosError LoginResult :=
  match responseStage s.browser outcome with
  | (b1, Except.ok response) =>
    let token := response.data.token
    let user := response.data.user
    let ls := setItem (setItem b1.localStorage "token" token) "user" (env.stringify user)
    ({ browser := { b1 with localStorage := ls },
       auth := { s.auth with token := some token, user := some user, loading := false } },
     Except.ok { success := true, error := none })
  | (b1, Except.error err) => loginCatch err { s with browser := b1 }

/-- The part of `register` after `await authService.register(userData)`. -/
def registerSettle (env : Env) (outcome : Except AxiosError (Response LoginData))
    (s : App) : App × Except AxiosError LoginResult :=
  match responseStage s.browser outcome with
  | (b1, Except.ok response) =>
    let token := response.data.token
    let user := response.data.user
    let ls := setItem (setItem b1.localStorage "token" token) "user" (env.stringify user)
    ({ browser := { b1 with localStorage := ls },
       auth := { s.auth with token := some token, user := some user, loading := false } },
     Except.ok { success := true, error := none })
  | (b1, Except.error err) => registerCatch err { s with browser := b1 }

/-- A request of the session store that was sent and is not answered yet. -/
inductive Pending where
  | profile
  | login
  | register
  deriving DecidableEq, Repr

/-- The application together with the requests of the session store in flight. -/
structure Running where
  app : App
  pending : List Pending

/-- The effect of `AuthProvider` runs `checkLoggedIn` up to its `await`. -/
def effectRuns (env : Env) (r : Running) : Running :=
  { app := (checkLoggedInStart env r.app).1,
    pending :=
      if (checkLoggedInStart env r.app).2 then r.pending ++ [Pending.profile]
      else r.pending }

/-- One step of the session store: the effect runs, `login`, `register` or
`logout` is called, or a request in flight is answered and the code after its
`await` runs. -/
inductive Step : Running → Running → Prop where
  | effect (env : Env) (r : Running) : Step r (effectRuns env r)
  | profileAnswered (outcome : Except AxiosError (Response ProfileBody)) (r : Running) :
      Pending.profile ∈ r.pending →
      Step r { app := checkLoggedInSettle outcome r.app,
               pending := r.pending.erase Pending.profile }
  | loginCalled (r : Running) :
      Step r { app := loginStart r.app, pending := r.pending ++ [Pending.login] }
  | loginAnswered (env : Env) (outcome : Except AxiosError (Response LoginData))
      (r : Running) :
      Pending.login ∈ r.pending →
      Step r { app := (loginSettle env outcome r.app).1,
               pending := r.pending.erase Pending.login }
  | registerCalled (r : Running) :
      Step r { app := loginStart r.app, pending := r.pending ++ [Pending.register] }
  | registerAnswered (env : Env) (outcome : Except AxiosError (Response LoginData))
      (r : Running) :
      Pending.register ∈ r.pending →
      Step r { app := (registerSettle env outcome r.app).1,
               pending := r.pending.erase Pending.register }
  | logoutCalled (r : Running) :
      Step r { app := logout r.app, pending := r.pending }

/-- The states the session store reaches from an initial load by any sequence
of steps, overlapping operations included. -/
inductive Runs : Running → Prop where
  | initialLoad (b : Browser) : Runs { app := mount b, pending := [] }
  | step (r r1 : Running) : Runs r → Step r r1 → Runs r1

/-- The states the session store reaches when its operations do not overlap:
while a request is in flight the only step is its answer. -/
inductive SequentialRuns : Running → Prop where
  | initialLoad (b : Browser) : SequentialRuns { app := mount b, pending := [] }
  | start (r r1 : Running) :
      SequentialRuns r → r.pending = [] → Step r r1 → SequentialRuns r1
  | answer (r r1 : Running) :
      SequentialRuns r → Step r r1 → r1.pending.length < r.pending.length →
      SequentialRuns r1

/-! ## Example runs of the session store -/

/-- A decoder and a clock for the examples: every token but the empty string
decodes with expiry 2000000000 s, and the time is 1700000000000 ms. -/
def sampleEnv : Env :=
  { stringify := fun u => u.role,
    jwtDecode := fun t => if t = "" then none else some { exp := some 2000000000 },
    nowMs := 1700000000000 }

/-- A successful answer to `GET /auth/me`. -/
def sampleProfile : Except AxiosError (Response ProfileBody) :=
  Except.ok { status := 200, data := { data := { id := 1, role := "admin" } } }

/-- A successful answer to `POST /auth/login`. -/
def sampleLogin : Except AxiosError (Response LoginData) :=
  Except.ok { status := 200, data := { token := "abc", user := { id := 1, role := "admin" } } }

/-- The document has loaded on a storage that holds a token. -/
def loadedRun : Running :=
  { app := mount { localStorage := [("token", "abc")], href := "/dashboard" },
    pending := [] }

/-- The effect has run on `loadedRun`: the profile request is in flight. -/
def fetchingRun : Running := effectRuns sampleEnv loadedRun

/-- The profile request of `fetchingRun` has been answered. -/
def rehydratedRun : Running :=
  { app := checkLoggedInSettle sampleProfile fetchingRun.app,
    pending := fetchingRun.pending.erase Pending.profile }

/-- The document has loaded on an empty storage, the effect has run, `login` was
called and its request answered with success. -/
def signedInRun : Running :=
  { app := (loginSettle sampleEnv sampleLogin
      (loginStart (effectRuns sampleEnv
        { app := mount { localStorage := [], href := "/login" }, pending := [] }).app)).1,
    pending := [] }

/-- The token has changed, so the effect runs again on `signedInRun`: the
profile request is in flight. -/
def refetchingRun : Running := effectRuns sampleEnv signedInRun

/-- `logout` is called while the profile request of `refetchingRun` is in
flight. -/
def loggedOutRun : Running :=
  { app := logout refetchingRun.app, pending := refetchingRun.pending }

/-- The profile request sent before the logout is answered after it. -/
def lateAnswerRun : Running :=
  { app := checkLoggedInSettle sampleProfile loggedOutRun.app,
    pending := loggedOutRun.pending.erase Pending.profile }

/-! ## The resource services (`services/api.js`) -/

/-- One operation of a service object: its name, the HTTP method of the call it
makes and the path it passes, with `:id` where the source interpolates the id. -/
structure Operation where
  name : String
  method : String
  template : String
  deriving DecidableEq, Repr

/-- `authService`. -/
def authService : List Operation :=
  [ { name := "login", method := "post", template := "/auth/login" },
    { name := "register", method := "post", template := "/auth/register" },
    { name := "getProfile", method := "get", template := "/auth/me" },
    { name := "logout", method := "get", template := "/auth/logout" } ]

/-- `employeeService`. -/
def employeeService : List Operation :=
  [ { name := "getAllEmployees", method := "get", template := "/employees" },
    { name := "getEmployee", method := "get", template := "/employees/:id" },
    { name := "createEmployee", method := "post", template := "/employees" },
    { name := "updateEmployee", method := "put", template := "/employees/:id" },
    { name := "deleteEmployee", method := "delete", template := "/employees/:id" },
    { name := "resetEmployeePassword", method := "put",
      template := "/employees/:id/reset-password" } ]

/-- `documentService`. -/
def documentService : List Operation :=
  [ { name := "getAllDocuments", method := "get", template := "/documents" },
    { name := "getDocument", method := "get", template := "/documents/:id" },
    { name := "uploadDocument", method := "post", template := "/documents" },
    { name := "updateDocumentStatus", method := "put", template := "/documents/:id/verify" },
    { name := "verifyDocument", method := "put", template := "/documents/:id/verify" },
    { name := "deleteDocument", method := "delete", template := "/documents/:id" } ]

/-- `locationService`. -/
def locationService : List Operation :=
  [ { name := "getAllLocations", method := "get", template := "/locations" },
    { name := "getLocation", method := "get", template := "/locations/:id" },
    { name := "checkIn", method := "post", template := "/locations/checkin" },
    { name := "checkOut", method := "put", template := "/locations/:id/checkout" },
    { name := "deleteLocation", method := "delete", template := "/locations/:id" },
    { name := "updateLiveLocation", method := "put",
      template := "/locations/:id/live-update" } ]

/-- `helpCenterService`. -/
def helpCenterService : List Operation :=
  [ { name := "getAllTickets", method := "get", template := "/help-center" },
    { name := "getTicket", method := "get", template := "/help-center/:id" },
    { name := "createTicket", method := "post", template := "/help-center" },
    { name := "replyToTicket", method := "put", template := "/help-center/:id/reply" },
    { name := "updateTicketStatus", method := "put", template := "/help-center/:id/status" },
    { name := "deleteTicket", method := "delete", template := "/help-center/:id" },
    { name := "getStats", method := "get", template := "/help-center/stats" } ]

/-- `paymentRecordsService`. -/
def paymentRecordsService : List Operation :=
  [ { name := "getAllRecords", method := "get", template := "/payment-records" },
    { name := "getRecord", method := "get", template := "/payment-records/:id" },
    { name := "createRecord", method := "post", template := "/payment-records" },
    { name := "updateRecord", method := "put", template := "/payment-records/:id" },
    { name := "updatePaymentStatus", method := "put", template := "/payment-records/:id" },
    { name := "deleteRecord", method := "delete", template := "/payment-records/:id" },
    { name := "getStats", method := "get", template := "/payment-records/stats" },
    { name := "getMyPaymentSummary", method := "get",
      template := "/payment-records/my-summary" } ]

/-- The mapping from operations to endpoints is one-to-one: two operations with
different names differ in method or in path template. -/
def oneToOne (service : List Operation) : Prop :=
  ∀ a ∈ service, ∀ b ∈ service, a.name ≠ b.name →
    a.method ≠ b.method ∨ a.template ≠ b.template

/-! ## Check-in and check-out (`pages/Locations.js`), as far as the browser goes -/

/-- The part of a response body the handlers branch on: `response.data.success`. -/
structure Envelope where
  success : Bool
  deriving DecidableEq, Repr

/-- The answers of the backend to the requests of the Locations view. -/
structure LocationsBackend where
  locations : RequestConfig → Except AxiosError (Response Envelope)
  employees : RequestConfig → Except AxiosError (Response Envelope)
  checkIn : RequestConfig → Except AxiosError (Response Envelope)
  checkOut : RequestConfig → Except AxiosError (Response Envelope)

/-- The configuration of `api.get('/locations')`. -/
def locationsRequest : RequestConfig :=
  { method := "get", url := "/locations", headers := defaultHeaders }

/-- The configuration of `api.get('/employees')`. -/
def employeesRequest : RequestConfig :=
  { method := "get", url := "/employees", headers := defaultHeaders }

/-- The configuration of `api.post('/locations/checkin', locationData)`. -/
def checkInRequest (locationData : Storage) : RequestConfig :=
  { method := "post", url := "/locations/checkin", headers := defaultHeaders,
    data := locationData }

/-- The configuration of `api.put('/locations/' + id + '/checkout')`. -/
def checkOutRequest (id : String) : RequestConfig :=
  { method := "put", url := "/locations/" ++ id ++ "/checkout", headers := defaultHeaders }

/-- The effect of `fetchLocations` on the browser: the list request, and for an
admin the employees request when the list request was answered; every rejection
is caught inside. -/
def fetchLocations (backend : LocationsBackend) (admin : Bool) (b : Browser) : Browser :=
  match apiRequest backend.locations b locationsRequest with
  | (b1, Except.ok _) =>
    if admin then (apiRequest backend.employees b1 employeesRequest).1 else b1
  | (b1, Except.error _) => b1

/-- The effect of `handleCheckIn(location, addressText)` on the browser;
`location` is `none` for a missing location and otherwise the request body
built from it, `now` is `Date.now()` at the time of the storage write. -/
def handleCheckIn (backend : LocationsBackend) (admin : Bool) (now : Nat)
    (location : Option Storage) (b : Browser) : Browser :=
  match location with
  | none => b
  | some locationData =>
    match apiRequest backend.checkIn b (checkInRequest locationData) with
    | (b1, Except.ok response) =>
      if response.data.success then
        let b2 := fetchLocations backend admin b1
        { b2 with
          localStorage := setItem b2.localStorage "locationStatusChanged" (toString now) }
      else
        b1
    | (b1, Except.error _) => b1

/-- The effect of `handleCheckOut(id)` on the browser. -/
def handleCheckOut (backend : LocationsBackend) (admin : Bool) (now : Nat)
    (id : String) (b : Browser) : Browser :=
  match apiRequest backend.checkOut b (checkOutRequest id) with
  | (b1, Except.ok response) =>
    if response.data.success then
      let b2 := fetchLocations backend admin b1
      { b2 with
        localStorage := setItem b2.localStorage "locationStatusChanged" (toString now) }
    else
      b1
  | (b1, Except.error _) => b1

/-- No answer of the backend is an error with status 401. -/
def neverUnauthorized {α : Type} (server : RequestConfig → Except AxiosError (Response α)) :
    Prop :=
  ∀ (config : RequestConfig) (error : AxiosError),
    server config = Except.error error → isUnauthorized error = false

/-! ## The Locations and Documents views: handlers that change the list

A handler is given `api`, what the awaited service call settles to for the
configuration the service builds, and returns the new list state together with
the configurations of the requests it issued. -/

/-- A row of the Locations view, as `fetchLocations` formats it; the coordinates
are kept in the form the backend delivered them. -/
structure LocationRecord where
  id : String
  latitude : String
  longitude : String
  address : String
  checkInTime : String
  checkOutTime : Option String
  status : String
  employeeName : String
  employeeId : String
  deriving DecidableEq, Repr

/-- `handleDeleteLocation(id)` of `pages/Locations.js`. -/
def handleDeleteLocation (id : String) (locations : List LocationRecord) :
    List LocationRecord × List RequestConfig :=
  (locations.filter (fun loc => loc.id != id), [])

/-- A row of the Documents view, as `fetchData` formats it. -/
structure Document where
  id : String
  name : String
  type : String
  uploadDate : String
  verificationStatus : String
  fileUrl : String
  employeeName : String
  employeeId : String
  deriving DecidableEq, Repr

/-- The configuration of `api.put('/documents/' + id + '/verify', { status })`. -/
def verifyRequest (id status : String) : RequestConfig :=
  { method := "put", url := "/documents/" ++ id ++ "/verify", headers := defaultHeaders,
    data := [("status", status)] }

/-- The configuration of `api.delete('/documents/' + id)`. -/
def deleteDocumentRequest (id : String) : RequestConfig :=
  { method := "delete", url := "/documents/" ++ id, headers := defaultHeaders }

/-- `handleVerifyDocument(id, status)` of `pages/Documents.js`. -/
def handleVerifyDocument (api : RequestConfig → Except AxiosError (Response Envelope))
    (id status : String) (documents : List Document) :
    List Document × List RequestConfig :=
  match api (verifyRequest id status) with
  | Except.ok response =>
    if response.data.success then
      (documents.map (fun doc =>
          if doc.id == id then { doc with verificationStatus := status } else doc),
       [verifyRequest id status])
    else
      (documents, [verifyRequest id status])
  | Except.error _ => (documents, [verifyRequest id status])

/-- `handleDeleteDocument(id)` of `pages/Documents.js`; `confirmed` is the answer
of `window.confirm`. -/
def handleDeleteDocument (api : RequestConfig → Except AxiosError (Response Envelope))
    (confirmed : Bool) (id : String) (documents : List Document) :
    List Document × List RequestConfig :=
  if !confirmed then
    (documents, [])
  else
    match api (deleteDocumentRequest id) with
    | Except.ok response =>
      if response.data.success then
        (documents.filter (fun doc => doc.id != id), [deleteDocumentRequest id])
      else
        (documents, [deleteDocumentRequest id])
    | Except.error _ => (documents, [deleteDocumentRequest id])

/-! ## The Help Center view: creating a ticket -/

/-- The code points `String.prototype.trim` strips: WhiteSpace and
LineTerminator of the language specification. -/
def isJsWhitespace (c : Char) : Bool :=
  c.toNat == 9 || c.toNat == 10 || c.toNat == 11 || c.toNat == 12 || c.toNat == 13
  || c.toNat == 32 || c.toNat == 160 || c.toNat == 5760
  || (8192 ≤ c.toNat && c.toNat ≤ 8202)
  || c.toNat == 8232 || c.toNat == 8233 || c.toNat == 8239 || c.toNat == 8287
  || c.toNat == 12288 || c.toNat == 65279

/-- `s.trim()`. -/
def jsTrim (s : String) : String :=
  String.mk ((s.data.dropWhile isJsWhitespace).reverse.dropWhile isJsWhitespace).reverse

/-- The form of the new-ticket dialog. -/
structure TicketForm where
  subject : String
  message : String
  priority : String
  category : String
  deriving DecidableEq, Repr

/-- A help ticket as the backend delivers it, as far as the list shows it. -/
structure Ticket where
  id : String
  subject : String
  message : String
  status : String
  deriving DecidableEq, Repr

/-- The body of `GET /help-center`: `{ success, data? }`. -/
structure TicketsBody where
  data : Option (List Ticket)
  deriving DecidableEq, Repr

/-- The state of the Help Center view the handler reads and writes. -/
structure HelpCenterView where
  tickets : List Ticket
  loading : Bool
  openDialog : Bool
  formData : TicketForm
  filters : Storage
  deriving DecidableEq, Repr

/-- The form the dialog starts with and is reset to. -/
def emptyTicketForm : TicketForm :=
  { subject := "", message := "", priority := "medium", category := "general" }

/-- The configuration of `api.get('/help-center', { params })`. -/
def ticketsRequest (filters : Storage) : RequestConfig :=
  { method := "get", url := "/help-center", headers := defaultHeaders, params := filters }

/-- The configuration of `api.post('/help-center', ticketData)`. -/
def createTicketRequest (form : TicketForm) : RequestConfig :=
  { method := "post", url := "/help-center", headers := defaultHeaders,
    data := [("subject", form.subject), ("message", form.message),
             ("priority", form.priority), ("category", form.category)] }

/-- `fetchTickets()` of `pages/HelpCenter.js`. -/
def fetchTickets (api : RequestConfig → Except AxiosError (Response TicketsBody))
    (v : HelpCenterView) : HelpCenterView × List RequestConfig :=
  match api (ticketsRequest v.filters) with
  | Except.ok response =>
    ({ v with tickets := response.data.data.getD [], loading := false },
     [ticketsRequest v.filters])
  | Except.error _ => ({ v with loading := false }, [ticketsRequest v.filters])

/-- `handleCreateTicket()` of `pages/HelpCenter.js`. -/
def handleCreateTicket (createApi : RequestConfig → Except AxiosError (Response Envelope))
    (listApi : RequestConfig → Except AxiosError (Response TicketsBody))
    (v : HelpCenterView) : HelpCenterView × List RequestConfig :=
  if !strTruthy (jsTrim v.formData.subject) || !strTruthy (jsTrim v.formData.message) then
    (v, [])
  else
    match createApi (createTicketRequest v.formData) with
    | Except.ok _ =>
      let r := fetchTickets listApi { v with openDialog := false, formData := emptyTicketForm }
      (r.1, createTicketRequest v.formData :: r.2)
    | Except.error _ => (v, [createTicketRequest v.formData])

/-! ## The Login view (`components/auth/Login.js`) -/

/-- The local state of the Login view: the inline error and the form's
submitting flag. -/
structure LoginView where
  error : Option String
  submitting : Bool
  deriving DecidableEq, Repr

/-- `handleSubmit(values, { setSubmitting })` of the Login view; `navigate`
changes the location. -/
def handleSubmit (env : Env)
    (server : RequestConfig → Except AxiosError (Response LoginData))
    (values : Credentials) (s : App) (v : LoginView) : App × LoginView :=
  match login env server values s with
  | (s1, Except.ok result) =>
    if result.success then
      ({ s1 with browser := { s1.browser with href := "/dashboard" } },
       { v with submitting := false })
    else
      (s1, { error := result.error, submitting := false })
  | (s1, Except.error _) =>
    (s1, { error := some "Login failed. Please try again.", submitting := false })

/-! ## The Documents view: filtering and sorting -/

/-- Library functions of the string and date built-ins: `toLowerCase`, and the
time value of `new Date(s)` for the `uploadDate` strings, which `toISOString`
wrote. -/
structure Builtins where
  toLowerCase : String → String
  dateValue : String → Int

/-- The UTF-16 code units of a string: the relational operators compare strings
code unit by code unit. -/
def utf16 (s : String) : List Nat :=
  s.data.flatMap (fun c =>
    if c.toNat < 65536 then [c.toNat]
    else [55296 + (c.toNat - 65536) / 1024, 56320 + (c.toNat - 65536) % 1024])

/-- `hay.includes(needle)`. -/
def includes (hay needle : String) : Bool :=
  decide (needle.data <:+: hay.data)

/-- The `filters` state of the Documents view. -/
structure DocumentFilters where
  status : String
  type : String
  employee : String
  deriving DecidableEq, Repr

/-- The values the sort selector offers for `sortBy`. -/
inductive SortField where
  | uploadDate
  | name
  | type
  | employeeName
  | verificationStatus
  deriving DecidableEq, Repr

/-- The property read by `a[sortBy]`. -/
def SortField.get (sortBy : SortField) (doc : Document) : String :=
  match sortBy with
  | SortField.uploadDate => doc.uploadDate
  | SortField.name => doc.name
  | SortField.type => doc.type
  | SortField.employeeName => doc.employeeName
  | SortField.verificationStatus => doc.verificationStatus

/-- The callback of `documents.filter` in `getFilteredAndSortedDocuments`. -/
def documentMatches (builtins : Builtins) (filters : DocumentFilters) (doc : Document) :
    Bool :=
  let statusMatch := filters.status == "all" || doc.verificationStatus == filters.status
  let typeMatch := filters.type == "all" || doc.type == filters.type
  let employeeMatch := filters.employee == "all"
    || includes (builtins.toLowerCase doc.employeeName) (builtins.toLowerCase filters.employee)
  statusMatch && typeMatch && employeeMatch

/-- The last statement of the sort callback, on the two values it compares. -/
def compareValues {κ : Type} [LinearOrder κ] (sortOrder : String) (aValue bValue : κ) : Int :=
  if sortOrder == "asc" then
    (if aValue > bValue then 1 else -1)
  else
    (if aValue < bValue then 1 else -1)

/-- The callback of `filtered.sort`: dates are compared by their time value,
every other field as lower-cased strings. -/
def compareDocuments (builtins : Builtins) (sortBy : SortField) (sortOrder : String)
    (a b : Document) : Int :=
  if sortBy = SortField.uploadDate then
    compareValues sortOrder (builtins.dateValue (sortBy.get a))
      (builtins.dateValue (sortBy.get b))
  else
    compareValues sortOrder (utf16 (builtins.toLowerCase (sortBy.get a)))
      (utf16 (builtins.toLowerCase (sortBy.get b)))

/-- `Array.prototype.sort(comparefn)`, as the stable merge sort the engines
implement: of two elements `a` before `b`, `b` overtakes `a` only when
`comparefn(a, b) > 0`. -/
def arraySort {α : Type} (comparefn : α → α → Int) (l : List α) : List α :=
  l.mergeSort (fun a b => decide (comparefn a b ≤ 0))

/-- `getFilteredAndSortedDocuments()` of `pages/Documents.js`. -/
def getFilteredAndSortedDocuments (builtins : Builtins) (admin : Bool)
    (documents : List Document) (filters : DocumentFilters) (sortBy : SortField)
    (sortOrder : String) : List Document :=
  if !admin then documents
  else
    arraySort (compareDocuments builtins sortBy sortOrder)
      (documents.filter (documentMatches builtins filters))

/-! ## Payment records: the overtime object -/

/-- The number arithmetic the handlers use, taken as given: `parseFloat`, the
numbers that are falsy (`NaN`, `0`, `-0`), the number `0` and the operator `*`. -/
structure Arith (F : Type) where
  parseFloat : String → F
  falsy : F → Bool
  zero : F
  mul : F → F → F

/-- The `overtime` part of the payment form. -/
structure OvertimeForm where
  hours : String
  rate : String
  amount : String
  deriving DecidableEq, Repr

/-- A bonus or deduction line of the payment form. -/
structure AdjustmentForm where
  description : String
  amount : String
  deriving DecidableEq, Repr

/-- The `formData` state of the Payment Records view; the two dates are `null`
until picked. -/
structure PaymentForm where
  employeeId : String
  weekStartDate : Option String
  weekEndDate : Option String
  basicSalary : String
  overtime : OvertimeForm
  bonuses : List AdjustmentForm
  deductions : List AdjustmentForm
  paymentMethod : String
  notes : String
  deriving DecidableEq, Repr

/-- The `overtime` object of the request body. -/
structure Overtime (F : Type) where
  hours : F
  rate : F
  amount : F

/-- A bonus or deduction line of the request body. -/
structure Adjustment (F : Type) where
  description : String
  amount : F

/-- The body `handleCreateRecord` sends: the form with the numbers parsed. -/
structure CreateRecordData (F : Type) where
  employeeId : String
  weekStartDate : Option String
  weekEndDate : Option String
  basicSalary : F
  overtime : Overtime F
  bonuses : List (Adjustment F)
  deductions : List (Adjustment F)
  paymentMethod : String
  notes : String

/-- The body `handleUpdateRecord` sends. -/
structure UpdateRecordData (F : Type) where
  basicSalary : F
  overtime : Overtime F
  bonuses : List (Adjustment F)
  deductions : List (Adjustment F)
  paymentMethod : String
  notes : String

/-- `parseFloat(x) || 0`. -/
def parseOrZero {F : Type} (arith : Arith F) (x : String) : F :=
  if arith.falsy (arith.parseFloat x) then arith.zero else arith.parseFloat x

/-- The body built by `handleCreateRecord`: `none` when the required-field check
returns before any request. -/
def handleCreateRecord {F : Type} (arith : Arith F) (formData : PaymentForm) :
    Option (CreateRecordData F) :=
  if !strTruthy formData.employeeId || formData.weekStartDate.isNone
      || formData.weekEndDate.isNone || !strTruthy formData.basicSalary then
    none
  else
    let overtimeAmount :=
      arith.mul (parseOrZero arith formData.overtime.hours)
        (parseOrZero arith formData.overtime.rate)
    some
      { employeeId := formData.employeeId,
        weekStartDate := formData.weekStartDate,
        weekEndDate := formData.weekEndDate,
        basicSalary := arith.parseFloat formData.basicSalary,
        overtime :=
          { hours := parseOrZero arith formData.overtime.hours,
            rate := parseOrZero arith formData.overtime.rate,
            amount := overtimeAmount },
        bonuses := formData.bonuses.map (fun bonus =>
          { description := bonus.description, amount := arith.parseFloat bonus.amount }),
        deductions := formData.deductions.map (fun deduction =>
          { description := deduction.description,
            amount := arith.parseFloat deduction.amount }),
        paymentMethod := formData.paymentMethod,
        notes := formData.notes }

/-- The body built by `handleUpdateRecord`: `none` when the required-field check
returns before any request. -/
def handleUpdateRecord {F : Type} (arith : Arith F) (formData : PaymentForm) :
    Option (UpdateRecordData F) :=
  if !strTruthy formData.basicSalary then
    none
  else
    let overtimeAmount :=
      arith.mul (parseOrZero arith formData.overtime.hours)
        (parseOrZero arith formData.overtime.rate)
    some
      { basicSalary := arith.parseFloat formData.basicSalary,
        overtime :=
          { hours := parseOrZero arith formData.overtime.hours,
            rate := parseOrZero arith formData.overtime.rate,
            amount := overtimeAmount },
        bonuses := formData.bonuses.map (fun bonus =>
          { description := bonus.description, amount := arith.parseFloat bonus.amount }),
        deductions := formData.deductions.map (fun deduction =>
          { description := deduction.description,
            amount := arith.parseFloat deduction.amount }),
        paymentMethod := formData.paymentMethod,
        notes := formData.notes }

/-! ## The dashboard statistics (`pages/Dashboard.js`) -/

/-- A document as the backend delivers it, as far as the dashboard reads it;
the status is `none` when the field is missing. -/
structure DashboardDocument where
  verificationStatus : Option String
  deriving DecidableEq, Repr

/-- The `stats` state of the dashboard. -/
structure Stats where
  totalEmployees : Nat
  totalDocuments : Nat
  pendingDocuments : Nat
  verifiedDocuments : Nat
  rejectedDocuments : Nat
  totalLocations : Nat
  deriving DecidableEq, Repr

/-- A list response of the backend: `{ success, count?, data? }`. -/
structure ListBody (α : Type) where
  count : Option Nat
  data : Option (List α)

/-- `documents.filter(doc => doc.verificationStatus === status).length`. -/
def countStatus (status : String) (documents : List DashboardDocument) : Nat :=
  (documents.filter (fun doc => doc.verificationStatus == some status)).length

/-- The statistics `fetchDashboardData` computes: both branches await all their
requests first, and a rejected one leaves the statistics as they were. -/
def fetchDashboardData (admin : Bool)
    (employeesRes : Except AxiosError (Response (ListBody Unit)))
    (documentsRes : Except AxiosError (Response (ListBody DashboardDocument)))
    (locationsRes : Except AxiosError (Response (ListBody Unit)))
    (stats : Stats) : Stats :=
  if admin then
    match employeesRes, documentsRes, locationsRes with
    | Except.ok employeesRes, Except.ok documentsRes, Except.ok locationsRes =>
      let documents := documentsRes.data.data.getD []
      let pendingDocs := countStatus "pending" documents
      let verifiedDocs := countStatus "verified" documents
      let rejectedDocs := countStatus "rejected" documents
      { totalEmployees := employeesRes.data.count.getD 0,
        totalDocuments := documents.length,
        pendingDocuments := pendingDocs,
        verifiedDocuments := verifiedDocs,
        rejectedDocuments := rejectedDocs,
        totalLocations := locationsRes.data.count.getD 0 }
    | _, _, _ => stats
  else
    match documentsRes, locationsRes with
    | Except.ok documentsRes, Except.ok locationsRes =>
      let documents := documentsRes.data.data.getD []
      let pendingDocs := countStatus "pending" documents
      let verifiedDocs := countStatus "verified" documents
      let rejectedDocs := countStatus "rejected" documents
      { totalEmployees := 0,
        totalDocuments := documents.length,
        pendingDocuments := pendingDocs,
        verifiedDocuments := verifiedDocs,
        rejectedDocuments := rejectedDocs,
        totalLocations := locationsRes.data.count.getD 0 }
    | _, _ => stats

/-! ## The sidebar (`components/layout/AdminLayout.js`) -/

/-- An entry of the sidebar, without its icon. -/
structure MenuItem where
  text : String
  path : String
  color : String
  deriving DecidableEq, Repr

/-- `menuItems` of `AdminLayout`. -/
def menuItems (admin : Bool) : List MenuItem :=
  [ { text := "Dashboard", path := "/dashboard", color := "#3b82f6" } ]
  ++ (if admin then [ { text := "Employees", path := "/employees", color := "#8b5cf6" } ]
      else [])
  ++ [ { text := "Documents", path := "/documents", color := "#10b981" },
       { text := "Locations", path := "/locations", color := "#f59e0b" },
       { text := "Help Center", path := "/help-center", color := "#ef4444" } ]
  ++ (if admin then
        [ { text := "Payment Records", path := "/payment-records", color := "#10b981" } ]
      else [ { text := "My Payments", path := "/my-payments", color := "#10b981" } ])

/-! ## Lemmas about storage -/

theorem getItem_nil (k : String) : getItem [] k = none := rfl

theorem getItem_cons_self (k v : String) (s : Storage) :
    getItem ((k, v) :: s) k = some v := by
  simp [getItem, List.find?_cons]

theorem getItem_cons_ne (a v j : String) (s : Storage) (h : a ≠ j) :
    getItem ((a, v) :: s) j = getItem s j := by
  simp [getItem, List.find?_cons, h]

theorem getItem_removeItem_self (s : Storage) (k : String) :
    getItem (removeItem s k) k = none := by
  induction s with
  | nil => rfl
  | cons p s ih =>
    obtain ⟨a, v⟩ := p
    by_cases h : a = k
    · have e : removeItem ((a, v) :: s) k = removeItem s k := by
        simp [removeItem, List.filter_cons, h]
      rw [e, ih]
    · have e : removeItem ((a, v) :: s) k = (a, v) :: removeItem s k := by
        simp [removeItem, List.filter_cons, h]
      rw [e, getItem_cons_ne a v k _ h, ih]

theorem getItem_removeItem_ne (s : Storage) (k j : String) (hkj : k ≠ j) :
    getItem (removeItem s k) j = getItem s j := by
  induction s with
  | nil => rfl
  | cons p s ih =>
    obtain ⟨a, v⟩ := p
    by_cases h : a = k
    · have e : removeItem ((a, v) :: s) k = removeItem s k := by
        simp [removeItem, List.filter_cons, h]
      have haj : a ≠ j := by rw [h]; exact hkj
      rw [e, ih, getItem_cons_ne a v j s haj]
    · have e : removeItem ((a, v) :: s) k = (a, v) :: removeItem s k := by
        simp [removeItem, List.filter_cons, h]
      rw [e]
      by_cases haj : a = j
      · subst haj
        rw [getItem_cons_self, getItem_cons_self]
      · rw [getItem_cons_ne a v j _ haj, getItem_cons_ne a v j _ haj, ih]

theorem getItem_replace_ne (s : Storage) (k v j : String) (hkj : k ≠ j) :
    getItem (s.map (fun p => if p.1 == k then (k, v) else p)) j = getItem s j := by
  induction s with
  | nil => rfl
  | cons p s ih =>
    obtain ⟨a, w⟩ := p
    rw [List.map_cons]
    by_cases h : a = k
    · have haj : a ≠ j := by rw [h]; exact hkj
      simp only [h, beq_self_eq_true, if_true]
      rw [getItem_cons_ne k v j _ hkj, ih, getItem_cons_ne k w j s hkj]
    · have e : (if ((a, w).1 == k) = true then (k, v) else (a, w)) = (a, w) := by
        simp [h]
      rw [e]
      by_cases haj : a = j
      · subst haj
        rw [getItem_cons_self, getItem_cons_self]
      · rw [getItem_cons_ne a w j _ haj, getItem_cons_ne a w j _ haj, ih]

theorem getItem_replace_self (s : Storage) (k v : String)
    (hany : s.any (fun p => p.1 == k) = true) :
    getItem (s.map (fun p => if p.1 == k then (k, v) else p)) k = some v := by
  induction s with
  | nil => simp at hany
  | cons p s ih =>
    obtain ⟨a, w⟩ := p
    rw [List.map_cons]
    by_cases h : a = k
    · simp only [h, beq_self_eq_true, if_true]
      rw [getItem_cons_self]
    · have e : (if ((a, w).1 == k) = true then (k, v) else (a, w)) = (a, w) := by
        simp [h]
      have hs : s.any (fun p => p.1 == k) = true := by
        simpa [List.any_cons, h] using hany
      rw [e, getItem_cons_ne a w k _ h, ih hs]

theorem getItem_append_ne (s : Storage) (k v j : String) (hkj : k ≠ j) :
    getItem (s ++ [(k, v)]) j = getItem s j := by
  induction s with
  | nil => rw [List.nil_append, getItem_cons_ne k v j [] hkj]
  | cons p s ih =>
    obtain ⟨a, w⟩ := p
    rw [List.cons_append]
    by_cases haj : a = j
    · subst haj
      rw [getItem_cons_self, getItem_cons_self]
    · rw [getItem_cons_ne a w j _ haj, getItem_cons_ne a w j _ haj, ih]

theorem getItem_append_self (s : Storage) (k v : String)
    (hany : ¬ s.any (fun p => p.1 == k) = true) :
    getItem (s ++ [(k, v)]) k = some v := by
  induction s with
  | nil => rw [List.nil_append, getItem_cons_self]
  | cons p s ih =>
    obtain ⟨a, w⟩ := p
    have h : a ≠ k := by
      intro h; apply hany; simp [List.any_cons, h]
    have hs : ¬ s.any (fun p => p.1 == k) = true := by
      intro hs; apply hany; simp only [List.any_cons, hs, Bool.or_true]
    rw [List.cons_append, getItem_cons_ne a w k _ h, ih hs]

theorem getItem_setItem_self (s : Storage) (k v : String) :
    getItem (setItem s k v) k = some v := by
  unfold setItem
  split
  · rename_i hany
    exact getItem_replace_self s k v hany
  · rename_i hany
    exact getItem_append_self s k v hany

theorem getItem_setItem_ne (s : Storage) (k v j : String) (hkj : k ≠ j) :
    getItem (setItem s k v) j = getItem s j := by
  unfold setItem
  split
  · exact getItem_replace_ne s k v j hkj
  · exact getItem_append_ne s k v j hkj
/-! ## Theorems: the route gate -/

/-- C1: with loading false and isAuthenticated false, the gate redirects to
/login for every value of requireAdmin and isAdmin; in particular it does not
render the Outlet. -/
theorem protectedRoute_unauthenticated_redirects_to_login
    (requireAdmin admin : Bool) :
    ProtectedRoute requireAdmin
        { isAuthenticated := false, isAdmin := admin, loading := false }
      = Element.navigate "/login"
    ∧ ProtectedRoute requireAdmin
        { isAuthenticated := false, isAdmin := admin, loading := false }
      ≠ Element.outlet := by
  cases requireAdmin <;> cases admin <;> simp [ProtectedRoute]

/-- C2: with loading false, isAuthenticated true, requireAdmin true and isAdmin
false, the gate redirects to /unauthorized, which is neither the redirect to
/login nor the Outlet; so the admin-only route /employees of the route table
sends an authenticated non-admin to /unauthorized. -/
theorem protectedRoute_non_admin_redirects_to_unauthorized :
    ProtectedRoute true
        { isAuthenticated := true, isAdmin := false, loading := false }
      = Element.navigate "/unauthorized"
    ∧ ProtectedRoute true
        { isAuthenticated := true, isAdmin := false, loading := false }
      ≠ Element.navigate "/login"
    ∧ ProtectedRoute true
        { isAuthenticated := true, isAdmin := false, loading := false }
      ≠ Element.outlet
    ∧ routes { isAuthenticated := true, isAdmin := false, loading := false } "/employees"
      = Screen.redirect "/unauthorized" := by
  refine ⟨?_, ?_, ?_, ?_⟩
  · simp [ProtectedRoute]
  · simp [ProtectedRoute]
  · simp [ProtectedRoute]
  · rfl

/-- C3: an authenticated admin with loading false gets the Outlet for both
values of requireAdmin, and an authenticated non-admin gets the Outlet when
requireAdmin is false. -/
theorem protectedRoute_renders_when_requirement_satisfied :
    (∀ requireAdmin : Bool,
      ProtectedRoute requireAdmin
          { isAuthenticated := true, isAdmin := true, loading := false }
        = Element.outlet)
    ∧ ProtectedRoute false
        { isAuthenticated := true, isAdmin := false, loading := false }
      = Element.outlet := by
  refine ⟨fun requireAdmin => ?_, ?_⟩
  · cases requireAdmin <;> simp [ProtectedRoute]
  · simp [ProtectedRoute]

/-- C4: while loading is true the gate returns the waiting indicator for every
combination of isAuthenticated, isAdmin and requireAdmin: never a redirect and
never the Outlet. -/
theorem protectedRoute_loading_shows_spinner
    (requireAdmin authenticated admin : Bool) :
    ProtectedRoute requireAdmin
        { isAuthenticated := authenticated, isAdmin := admin, loading := true }
      = Element.spinner
    ∧ (∀ target : String,
        ProtectedRoute requireAdmin
            { isAuthenticated := authenticated, isAdmin := admin, loading := true }
          ≠ Element.navigate target)
    ∧ ProtectedRoute requireAdmin
        { isAuthenticated := authenticated, isAdmin := admin, loading := true }
      ≠ Element.outlet := by
  simp [ProtectedRoute]

/-! ## Theorems: the response stage -/

theorem getItem_cleared_token (ls : Storage) :
    getItem (removeItem (removeItem ls "token") "user") "token" = none := by
  rw [getItem_removeItem_ne _ "user" "token" (by decide), getItem_removeItem_self]

theorem getItem_cleared_user (ls : Storage) :
    getItem (removeItem (removeItem ls "token") "user") "user" = none :=
  getItem_removeItem_self _ "user"

theorem isUnauthorized_of_status (error : AxiosError) (r : ErrorResponse)
    (hr : error.response = some r) (hs : r.status = 401) : isUnauthorized error = true := by
  simp [isUnauthorized, hr, hs]

theorem responseRejected_unauthorized {α : Type} (b : Browser) (error : AxiosError)
    (h : isUnauthorized error = true) :
    @responseRejected α b error
      = ({ localStorage := removeItem (removeItem b.localStorage "token") "user",
           href := "/login" },
         Except.error error) := by
  simp [responseRejected, h]

/-- C5: for every error whose response has status 401, the rejected handler of
the response stage leaves storage without the keys token and user, sets the
location to /login, and rejects with the very error it was given. -/
theorem responseRejected_unauthorized_clears_session {α : Type} (b : Browser)
    (error : AxiosError) (r : ErrorResponse)
    (hr : error.response = some r) (hs : r.status = 401) :
    getItem (@responseRejected α b error).1.localStorage "token" = none
    ∧ getItem (@responseRejected α b error).1.localStorage "user" = none
    ∧ (@responseRejected α b error).1.href = "/login"
    ∧ (@responseRejected α b error).2 = Except.error error := by
  rw [responseRejected_unauthorized b error (isUnauthorized_of_status error r hr hs)]
  exact ⟨getItem_cleared_token _, getItem_cleared_user _, rfl, rfl⟩

theorem responseRejected_unauthorized_clears_session_witness :
    getItem (@responseRejected Unit
        { localStorage := [("token", "abc"), ("theme", "dark"), ("user", "u1")],
          href := "/documents" }
        { message := "Request failed with status code 401",
          response := some { status := 401, data := none } }).1.localStorage "token" = none
    ∧ getItem (@responseRejected Unit
        { localStorage := [("token", "abc"), ("theme", "dark"), ("user", "u1")],
          href := "/documents" }
        { message := "Request failed with status code 401",
          response := some { status := 401, data := none } }).1.localStorage "user" = none
    ∧ (@responseRejected Unit
        { localStorage := [("token", "abc"), ("theme", "dark"), ("user", "u1")],
          href := "/documents" }
        { message := "Request failed with status code 401",
          response := some { status := 401, data := none } }).1.href = "/login"
    ∧ (@responseRejected Unit
        { localStorage := [("token", "abc"), ("theme", "dark"), ("user", "u1")],
          href := "/documents" }
        { message := "Request failed with status code 401",
          response := some { status := 401, data := none } }).2
      = Except.error { message := "Request failed with status code 401",
                       response := some { status := 401, data := none } } :=
  responseRejected_unauthorized_clears_session
    { localStorage := [("token", "abc"), ("theme", "dark"), ("user", "u1")],
      href := "/documents" }
    { message := "Request failed with status code 401",
      response := some { status := 401, data := none } }
    { status := 401, data := none } rfl rfl

/-- C8: the response stage returns a successful response as it is, and rejects
with the same error when the error has a response of a status other than 401 or
has no response at all; in each of the three cases storage and location are
those from before. -/
theorem responseStage_passes_through {α : Type} (b : Browser) :
    (∀ response : Response α,
      responseStage b (Except.ok response) = (b, Except.ok response))
    ∧ (∀ (error : AxiosError) (r : ErrorResponse),
        error.response = some r → r.status ≠ 401 →
        @responseStage α b (Except.error error) = (b, Except.error error))
    ∧ (∀ error : AxiosError,
        error.response = none →
        @responseStage α b (Except.error error) = (b, Except.error error)) := by
  refine ⟨fun response => rfl, fun error r hr hs => ?_, fun error hr => ?_⟩
  · simp [responseStage, responseRejected, isUnauthorized, hr, hs]
  · simp [responseStage, responseRejected, isUnauthorized, hr]

/-! ## Theorems: a request answered with status 401 -/

theorem reaction_keeps_href (reaction : CallerReaction) (err : AxiosError) (s : App) :
    (reaction.run err s).browser.href = s.browser.href := by
  cases reaction <;> rfl

theorem reaction_keeps_token_absent (reaction : CallerReaction) (err : AxiosError) (s : App)
    (h : getItem s.browser.localStorage "token" = none) :
    getItem (reaction.run err s).browser.localStorage "token" = none := by
  cases reaction
  · exact h
  · exact h
  · exact h
  · exact getItem_cleared_token _

theorem pageLoad_without_token (env : Env)
    (server : RequestConfig → Except AxiosError (Response ProfileBody)) (b : Browser)
    (h : getItem b.localStorage "token" = none) :
    pageLoad env server b
      = { browser := b,
          auth := { user := none, token := none, loading := false, error := none } } := by
  simp [pageLoad, mount, checkLoggedIn, h]

/-- C6: for every prior state, every error whose response has status 401 and
every reaction of the caller to the rejected promise, the state at the end (the
response stage has run, the caller has reacted, the document named by the
location has loaded) has isAuthenticated = false and shows the login view. -/
theorem unauthorized_response_ends_at_login (env : Env)
    (server : RequestConfig → Except AxiosError (Response ProfileBody))
    (reaction : CallerReaction) (error : AxiosError) (r : ErrorResponse) (s : App)
    (hr : error.response = some r) (hs : r.status = 401) :
    isAuthenticated (afterRejected env server reaction error s).auth = false
    ∧ currentView (afterRejected env server reaction error s) = Screen.page Page.Login := by
  have h := isUnauthorized_of_status error r hr hs
  have hb : (@responseRejected Unit s.browser error).1
      = { localStorage := removeItem (removeItem s.browser.localStorage "token") "user",
          href := "/login" } := by
    rw [responseRejected_unauthorized s.browser error h]
  have htok : getItem (reaction.run error
      { s with browser := (@responseRejected Unit s.browser error).1 }).browser.localStorage
      "token" = none := by
    apply reaction_keeps_token_absent
    rw [hb]
    exact getItem_cleared_token _
  have hhref : (reaction.run error
      { s with browser := (@responseRejected Unit s.browser error).1 }).browser.href
      = "/login" := by
    rw [reaction_keeps_href, hb]
  have e : afterRejected env server reaction error s
      = { browser := (reaction.run error
            { s with browser := (@responseRejected Unit s.browser error).1 }).browser,
          auth := { user := none, token := none, loading := false, error := none } } := by
    simp only [afterRejected, h, if_true]
    exact pageLoad_without_token env server _ htok
  rw [e]
  refine ⟨rfl, ?_⟩
  simp only [currentView, hhref]
  rfl

theorem unauthorized_response_ends_at_login_witness :
    isAuthenticated (afterRejected
        { stringify := fun u => u.role, jwtDecode := fun _ => some { exp := some 2000000000 },
          nowMs := 1700000000000 }
        (fun _ => Except.ok { status := 200, data := { data := { id := 1, role := "admin" } } })
        CallerReaction.pageCatch
        { message := "Request failed with status code 401",
          response := some { status := 401, data := none } }
        { browser := { localStorage := [("token", "abc"), ("user", "u1")],
                       href := "/documents" },
          auth := { user := some { id := 1, role := "admin" }, token := some "abc",
                    loading := false, error := none } }).auth = false
    ∧ currentView (afterRejected
        { stringify := fun u => u.role, jwtDecode := fun _ => some { exp := some 2000000000 },
          nowMs := 1700000000000 }
        (fun _ => Except.ok { status := 200, data := { data := { id := 1, role := "admin" } } })
        CallerReaction.pageCatch
        { message := "Request failed with status code 401",
          response := some { status := 401, data := none } }
        { browser := { localStorage := [("token", "abc"), ("user", "u1")],
                       href := "/documents" },
          auth := { user := some { id := 1, role := "admin" }, token := some "abc",
                    loading := false, error := none } }) = Screen.page Page.Login :=
  unauthorized_response_ends_at_login _ _ _ _ { status := 401, data := none } _ rfl rfl

/-! ## Theorems: the request stage -/

/-- C7, as stated, fails: storage holds the key token with the empty string as
its value, so a token entry is present, yet the request stage returns the
configuration as it was and attaches no Authorization header (the claim asks
for the header "Bearer " followed by the stored value). -/
theorem requestInterceptor_empty_token_attaches_nothing :
    getItem ([("token", "")] : Storage) "token" = some ""
    ∧ requestInterceptor { localStorage := [("token", "")], href := "/documents" }
        { method := "get", url := "/documents", headers := defaultHeaders }
      = { method := "get", url := "/documents", headers := defaultHeaders }
    ∧ getItem (requestInterceptor { localStorage := [("token", "")], href := "/documents" }
        { method := "get", url := "/documents", headers := defaultHeaders }).headers
        "Authorization" = none := by
  refine ⟨?_, ?_, ?_⟩ <;> simp [requestInterceptor, getItem, strTruthy, defaultHeaders]

/-- C7, amended: the request stage attaches Authorization = "Bearer " followed
by the stored token exactly when the stored token is a non-empty string; when
the key is absent or holds the empty string the configuration is returned as it
was; in every case method, url, data, params and every other header are those
of the configuration it was given. -/
theorem requestInterceptor_attaches_bearer_iff_nonempty (b : Browser)
    (config : RequestConfig) :
    (∀ token : String, getItem b.localStorage "token" = some token → token ≠ "" →
      requestInterceptor b config
        = { config with
            headers := setItem config.headers "Authorization" ("Bearer " ++ token) }
      ∧ getItem (requestInterceptor b config).headers "Authorization"
        = some ("Bearer " ++ token))
    ∧ (getItem b.localStorage "token" = none ∨ getItem b.localStorage "token" = some "" →
      requestInterceptor b config = config)
    ∧ (requestInterceptor b config).method = config.method
    ∧ (requestInterceptor b config).url = config.url
    ∧ (requestInterceptor b config).data = config.data
    ∧ (requestInterceptor b config).params = config.params
    ∧ (∀ k : String, k ≠ "Authorization" →
        getItem (requestInterceptor b config).headers k = getItem config.headers k) := by
  refine ⟨fun token h hne => ?_, fun h => ?_, ?_, ?_, ?_, ?_, fun k hk => ?_⟩
  · have e : requestInterceptor b config
        = { config with
            headers := setItem config.headers "Authorization" ("Bearer " ++ token) } := by
      simp [requestInterceptor, h, strTruthy, hne]
    refine ⟨e, ?_⟩
    rw [e]
    exact getItem_setItem_self _ _ _
  · rcases h with h | h <;> simp [requestInterceptor, h, strTruthy]
  all_goals
    unfold requestInterceptor
    split
    · split
      · first
          | rfl
          | exact getItem_setItem_ne _ _ _ _ (fun h => hk h.symm)
      · rfl
    · rfl

/-! ## Theorems: login -/

/-- C9, as stated, fails: a successful login whose response carries the empty
string as token stores it and returns success, but isAuthenticated is false
after it. -/
theorem login_empty_token_not_authenticated :
    (login { stringify := fun u => u.role, jwtDecode := fun _ => none, nowMs := 0 }
        (fun _ => Except.ok
          { status := 200, data := { token := "", user := { id := 1, role := "employee" } } })
        { email := "a@b.com", password := "secret1" }
        { browser := { localStorage := [], href := "/login" },
          auth := { user := none, token := none, loading := false, error := none } }).2
      = Except.ok { success := true, error := none }
    ∧ isAuthenticated
        (login { stringify := fun u => u.role, jwtDecode := fun _ => none, nowMs := 0 }
          (fun _ => Except.ok
            { status := 200,
              data := { token := "", user := { id := 1, role := "employee" } } })
          { email := "a@b.com", password := "secret1" }
          { browser := { localStorage := [], href := "/login" },
            auth := { user := none, token := none, loading := false,
                      error := none } }).1.auth
      = false := by
  constructor <;> rfl

/-- C9, amended: for every successful login whose response carries token T and
user U, after login returns storage holds token = T and user = the
serialisation of U, the in-memory token is T and the identity is U, isAdmin is
true exactly when U.role is "admin", the result is success without an error,
and isAuthenticated is true exactly when T is not the empty string. -/
theorem login_success_establishes_session (env : Env)
    (server : RequestConfig → Except AxiosError (Response LoginData))
    (credentials : Credentials) (s : App) (status : Int) (T : String) (U : User)
    (h : server (requestInterceptor s.browser (loginRequest credentials))
      = Except.ok { status := status, data := { token := T, user := U } }) :
    getItem (login env server credentials s).1.browser.localStorage "token" = some T
    ∧ getItem (login env server credentials s).1.browser.localStorage "user"
      = some (env.stringify U)
    ∧ (login env server credentials s).1.auth.token = some T
    ∧ (login env server credentials s).1.auth.user = some U
    ∧ (isAuthenticated (login env server credentials s).1.auth = true ↔ T ≠ "")
    ∧ (isAdmin (login env server credentials s).1.auth = true ↔ U.role = "admin")
    ∧ (login env server credentials s).2 = Except.ok { success := true, error := none } := by
  have e : login env server credentials s
      = ({ browser := { s.browser with
             localStorage := setItem (setItem s.browser.localStorage "token" T) "user"
               (env.stringify U) },
           auth := { user := some U, token := some T, loading := false, error := none } },
         Except.ok { success := true, error := none }) := by
    simp [login, authService_login, apiRequest, h, responseStage, responseFulfilled]
  rw [e]
  refine ⟨?_, ?_, rfl, rfl, ?_, ?_, rfl⟩
  · show getItem (setItem (setItem s.browser.localStorage "token" T) "user"
        (env.stringify U)) "token" = some T
    rw [getItem_setItem_ne _ "user" _ "token" (by decide), getItem_setItem_self]
  · exact getItem_setItem_self _ _ _
  · simp [isAuthenticated, truthy, strTruthy]
  · simp [isAdmin]

theorem login_success_establishes_session_witness :
    getItem (login { stringify := fun u => u.role, jwtDecode := fun _ => none, nowMs := 0 }
        (fun _ => Except.ok
          { status := 200, data := { token := "T", user := { id := 1, role := "employee" } } })
        { email := "a@b.com", password := "secret1" }
        { browser := { localStorage := [], href := "/login" },
          auth := { user := none, token := none, loading := false, error := none } }
      ).1.browser.localStorage "token" = some "T"
    ∧ isAuthenticated
        (login { stringify := fun u => u.role, jwtDecode := fun _ => none, nowMs := 0 }
          (fun _ => Except.ok
            { status := 200,
              data := { token := "T", user := { id := 1, role := "employee" } } })
          { email := "a@b.com", password := "secret1" }
          { browser := { localStorage := [], href := "/login" },
            auth := { user := none, token := none, loading := false,
                      error := none } }).1.auth
      = true
    ∧ isAdmin
        (login { stringify := fun u => u.role, jwtDecode := fun _ => none, nowMs := 0 }
          (fun _ => Except.ok
            { status := 200,
              data := { token := "T", user := { id := 1, role := "employee" } } })
          { email := "a@b.com", password := "secret1" }
          { browser := { localStorage := [], href := "/login" },
            auth := { user := none, token := none, loading := false,
                      error := none } }).1.auth
      = false := by
  have w := login_success_establishes_session
    { stringify := fun u => u.role, jwtDecode := fun _ => none, nowMs := 0 }
    (fun _ => Except.ok
      { status := 200, data := { token := "T", user := { id := 1, role := "employee" } } })
    { email := "a@b.com", password := "secret1" }
    { browser := { localStorage := [], href := "/login" },
      auth := { user := none, token := none, loading := false, error := none } }
    200 "T" { id := 1, role := "employee" } rfl
  refine ⟨w.1, w.2.2.2.2.1.mpr (by decide), ?_⟩
  have hadm := w.2.2.2.2.2.1
  cases hb : isAdmin
      (login { stringify := fun u => u.role, jwtDecode := fun _ => none, nowMs := 0 }
        (fun _ => Except.ok
          { status := 200,
            data := { token := "T", user := { id := 1, role := "employee" } } })
        { email := "a@b.com", password := "secret1" }
        { browser := { localStorage := [], href := "/login" },
          auth := { user := none, token := none, loading := false,
                    error := none } }).1.auth with
  | false => rfl
  | true => exact absurd (hadm.mp hb) (by decide)

/-- C10, as stated, fails: the server answers the login with an error field
that holds the empty string; the error field is there, yet login returns the
generic message and not the message the server supplied. -/
theorem login_empty_server_error_gives_generic :
    serverError { message := "Request failed with status code 400",
                  response := some { status := 400, data := some { error := some "" } } }
      = some ""
    ∧ (login { stringify := fun u => u.role, jwtDecode := fun _ => none, nowMs := 0 }
        (fun _ => Except.error
          { message := "Request failed with status code 400",
            response := some { status := 400, data := some { error := some "" } } })
        { email := "a@b.com", password := "secret1" }
        { browser := { localStorage := [], href := "/login" },
          auth := { user := none, token := none, loading := false, error := none } }).2
      = Except.ok { success := false, error := some "Login failed" } := by
  constructor <;> rfl

theorem login_rejected (env : Env)
    (server : RequestConfig → Except AxiosError (Response LoginData))
    (credentials : Credentials) (s : App) (err : AxiosError)
    (h : server (requestInterceptor s.browser (loginRequest credentials)) = Except.error err) :
    login env server credentials s
      = loginCatch err { browser := (@responseRejected LoginData s.browser err).1,
                         auth := { s.auth with loading := true, error := none } } := by
  have e : authService_login server s.browser credentials
      = ((@responseRejected LoginData s.browser err).1, Except.error err) := by
    simp only [authService_login, apiRequest, h, responseStage]
    unfold responseRejected
    split <;> rfl
  simp only [login, e]

/-- C10, amended: for every failed login, login returns (it does not throw)
success = false with error m, where m is the error message of the server
response when that message is a non-empty string, and "Login failed" when there
is no response, no body, no error field, or the error field is the empty
string. -/
theorem login_failure_reports_message (env : Env)
    (server : RequestConfig → Except AxiosError (Response LoginData))
    (credentials : Credentials) (s : App) (err : AxiosError)
    (h : server (requestInterceptor s.browser (loginRequest credentials)) = Except.error err) :
    (∃ m : String, (login env server credentials s).2
        = Except.ok { success := false, error := some m })
    ∧ (∀ (r : ErrorResponse) (body : ErrorBody) (msg : String),
        err.response = some r → r.data = some body → body.error = some msg → msg ≠ "" →
        (login env server credentials s).2
          = Except.ok { success := false, error := some msg })
    ∧ (err.response = none →
        (login env server credentials s).2
          = Except.ok { success := false, error := some "Login failed" })
    ∧ (∀ r : ErrorResponse, err.response = some r → r.data = none →
        (login env server credentials s).2
          = Except.ok { success := false, error := some "Login failed" })
    ∧ (∀ (r : ErrorResponse) (body : ErrorBody),
        err.response = some r → r.data = some body →
        (body.error = none ∨ body.error = some "") →
        (login env server credentials s).2
          = Except.ok { success := false, error := some "Login failed" }) := by
  rw [login_rejected env server credentials s err h]
  refine ⟨⟨_, rfl⟩, fun r body msg hr hd he hne => ?_, fun hr => ?_, fun r hr hd => ?_,
    fun r body hr hd he => ?_⟩
  · simp [loginCatch, errorMessage, serverError, hr, hd, he, strTruthy, hne]
  · simp [loginCatch, errorMessage, serverError, hr]
  · simp [loginCatch, errorMessage, serverError, hr, hd]
  · rcases he with he | he <;>
      simp [loginCatch, errorMessage, serverError, hr, hd, he, strTruthy]

theorem login_failure_reports_message_witness :
    (login { stringify := fun u => u.role, jwtDecode := fun _ => none, nowMs := 0 }
        (fun _ => Except.error
          { message := "Request failed with status code 401",
            response := some { status := 401,
                               data := some { error := some "Invalid credentials" } } })
        { email := "a@b.com", password := "secret1" }
        { browser := { localStorage := [], href := "/login" },
          auth := { user := none, token := none, loading := false, error := none } }).2
      = Except.ok { success := false, error := some "Invalid credentials" } :=
  (login_failure_reports_message
    { stringify := fun u => u.role, jwtDecode := fun _ => none, nowMs := 0 }
    (fun _ => Except.error
      { message := "Request failed with status code 401",
        response := some { status := 401,
                           data := some { error := some "Invalid credentials" } } })
    { email := "a@b.com", password := "secret1" }
    { browser := { localStorage := [], href := "/login" },
      auth := { user := none, token := none, loading := false, error := none } }
    { message := "Request failed with status code 401",
      response := some { status := 401,
                         data := some { error := some "Invalid credentials" } } }
    rfl).2.1
    { status := 401, data := some { error := some "Invalid credentials" } }
    { error := some "Invalid credentials" } "Invalid credentials" rfl rfl rfl (by decide)

/-! ## Theorems: a failed login and the prior session -/

/-- C11, as stated, fails: with a session in storage, a login that the backend
rejects with status 401 returns with the keys token and user removed from
storage, while they were there before the call. -/
theorem login_unauthorized_clears_persisted_session :
    getItem ({ localStorage := [("token", "abc"), ("user", "u1")],
               href := "/login" } : Browser).localStorage "token" = some "abc"
    ∧ getItem (login { stringify := fun u => u.role, jwtDecode := fun _ => none, nowMs := 0 }
        (fun _ => Except.error
          { message := "Request failed with status code 401",
            response := some { status := 401,
                               data := some { error := some "Invalid credentials" } } })
        { email := "a@b.com", password := "wrong-password" }
        { browser := { localStorage := [("token", "abc"), ("user", "u1")], href := "/login" },
          auth := { user := some { id := 1, role := "admin" }, token := some "abc",
                    loading := false, error := none } }).1.browser.localStorage "token"
      = none
    ∧ getItem (login { stringify := fun u => u.role, jwtDecode := fun _ => none, nowMs := 0 }
        (fun _ => Except.error
          { message := "Request failed with status code 401",
            response := some { status := 401,
                               data := some { error := some "Invalid credentials" } } })
        { email := "a@b.com", password := "wrong-password" }
        { browser := { localStorage := [("token", "abc"), ("user", "u1")], href := "/login" },
          auth := { user := some { id := 1, role := "admin" }, token := some "abc",
                    loading := false, error := none } }).1.browser.localStorage "user"
      = none := by
  refine ⟨?_, ?_, ?_⟩ <;> rfl

/-- C11, amended: for every prior state and every failure of the login request,
the in-memory token and identity after login returns are those from before;
when the failure is not a response with status 401, storage (so the keys token
and user) and the location are those from before as well; when it is a response
with status 401, the response stage has removed both keys and set the location
to /login. -/
theorem login_failure_session_effect (env : Env)
    (server : RequestConfig → Except AxiosError (Response LoginData))
    (credentials : Credentials) (s : App) (err : AxiosError)
    (h : server (requestInterceptor s.browser (loginRequest credentials)) = Except.error err) :
    (login env server credentials s).1.auth.token = s.auth.token
    ∧ (login env server credentials s).1.auth.user = s.auth.user
    ∧ (isUnauthorized err = false →
        (login env server credentials s).1.browser = s.browser)
    ∧ (isUnauthorized err = true →
        getItem (login env server credentials s).1.browser.localStorage "token" = none
        ∧ getItem (login env server credentials s).1.browser.localStorage "user" = none
        ∧ (login env server credentials s).1.browser.href = "/login") := by
  rw [login_rejected env server credentials s err h]
  refine ⟨rfl, rfl, fun hu => ?_, fun hu => ?_⟩
  · simp [loginCatch, responseRejected, hu]
  · rw [responseRejected_unauthorized s.browser err hu]
    exact ⟨getItem_cleared_token _, getItem_cleared_user _, rfl⟩

theorem login_failure_session_effect_witness :
    (login { stringify := fun u => u.role, jwtDecode := fun _ => none, nowMs := 0 }
        (fun _ => Except.error { message := "Network Error", response := none })
        { email := "a@b.com", password := "secret1" }
        { browser := { localStorage := [("token", "abc"), ("user", "u1")], href := "/login" },
          auth := { user := some { id := 1, role := "admin" }, token := some "abc",
                    loading := false, error := none } }).1.browser
      = { localStorage := [("token", "abc"), ("user", "u1")], href := "/login" } :=
  (login_failure_session_effect
    { stringify := fun u => u.role, jwtDecode := fun _ => none, nowMs := 0 }
    (fun _ => Except.error { message := "Network Error", response := none })
    { email := "a@b.com", password := "secret1" }
    { browser := { localStorage := [("token", "abc"), ("user", "u1")], href := "/login" },
      auth := { user := some { id := 1, role := "admin" }, token := some "abc",
                loading := false, error := none } }
    { message := "Network Error", response := none } rfl).2.2.1 rfl

/-! ## Theorems: logout -/

/-- C12: for every prior state, after logout storage holds neither token nor
user, the in-memory token and identity are absent, and isAuthenticated and
isAdmin are false.  Logout is a total function of the state alone: it has no
failing branch and no backend to call. -/
theorem logout_clears_session (s : App) :
    getItem (logout s).browser.localStorage "token" = none
    ∧ getItem (logout s).browser.localStorage "user" = none
    ∧ (logout s).auth.token = none
    ∧ (logout s).auth.user = none
    ∧ isAuthenticated (logout s).auth = false
    ∧ isAdmin (logout s).auth = false :=
  ⟨getItem_cleared_token _, getItem_cleared_user _, rfl, rfl, rfl, rfl⟩

/-- C18: for every state with loading false and for both requirement kinds, the
gate evaluated on the state after logout redirects to /login, whatever it
decided before logout. -/
theorem logout_invalidates_authorised_views (s : App) (requireAdmin : Bool)
    (h : s.auth.loading = false) :
    ProtectedRoute requireAdmin (contextValue (logout s).auth)
      = Element.navigate "/login" := by
  simp [ProtectedRoute, contextValue, logout, isAuthenticated, truthy, h]

theorem logout_invalidates_authorised_views_witness :
    ProtectedRoute true (contextValue
        ({ browser := { localStorage := [("token", "abc"), ("user", "u1")],
                        href := "/employees" },
           auth := { user := some { id := 1, role := "admin" }, token := some "abc",
                     loading := false, error := none } } : App).auth)
      = Element.outlet
    ∧ ProtectedRoute true (contextValue (logout
        { browser := { localStorage := [("token", "abc"), ("user", "u1")],
                       href := "/employees" },
          auth := { user := some { id := 1, role := "admin" }, token := some "abc",
                    loading := false, error := none } }).auth)
      = Element.navigate "/login" :=
  ⟨by decide,
   logout_invalidates_authorised_views
    { browser := { localStorage := [("token", "abc"), ("user", "u1")],
                   href := "/employees" },
      auth := { user := some { id := 1, role := "admin" }, token := some "abc",
                loading := false, error := none } }
    true rfl⟩

/-! ## Theorems: the derived session values -/

/-- C17, as stated, fails: the in-memory token is present and is the empty
string (the state after mounting on a storage whose token entry is empty), and
isAuthenticated is false. -/
theorem isAuthenticated_false_for_empty_token :
    (mount { localStorage := [("token", "")], href := "/dashboard" }).auth.token = some ""
    ∧ isAuthenticated
        (mount { localStorage := [("token", "")], href := "/dashboard" }).auth = false := by
  constructor <;> rfl

/-- C17, amended: isAuthenticated and isAdmin are functions of the state alone;
isAuthenticated is true exactly when the token is present and is not the empty
string, and isAdmin is true exactly when an identity is present and its role
equals "admin", so isAdmin is false whenever the identity is absent, for every
token. -/
theorem derived_session_values (a : AuthState) :
    (isAuthenticated a = true ↔ ∃ t : String, a.token = some t ∧ t ≠ "")
    ∧ (isAdmin a = true ↔ ∃ u : User, a.user = some u ∧ u.role = "admin")
    ∧ (a.user = none → isAdmin a = false) := by
  obtain ⟨user, token, loading, error⟩ := a
  refine ⟨?_, ?_, ?_⟩
  · cases token <;> simp [isAuthenticated, truthy, strTruthy]
  · cases user <;> simp [isAdmin]
  · intro h
    simp only at h
    simp [isAdmin, h]

/-! ## Theorems: rehydration -/

theorem checkLoggedInTraced_state (env : Env)
    (server : RequestConfig → Except AxiosError (Response ProfileBody)) (s : App) :
    (checkLoggedInTraced env server s).1 = checkLoggedIn env server s := by
  unfold checkLoggedInTraced checkLoggedIn
  cases htok : s.auth.token with
  | none => rfl
  | some token =>
    by_cases ht : strTruthy token = true
    · cases hd : env.jwtDecode token with
      | none => simp [ht, hd]
      | some d =>
        by_cases he : expired d env.nowMs = true
        · simp [ht, hd, he]
        · cases hp : authService_getProfile server s.browser with
          | mk b1 outcome => cases outcome <;> simp [ht, hd, he]
    · simp [ht]

theorem rehydrate_state (env : Env)
    (server : RequestConfig → Except AxiosError (Response ProfileBody)) (b : Browser) :
    (rehydrate env server b).1 = pageLoad env server b :=
  checkLoggedInTraced_state env server (mount b)

theorem token_truthy_of_decodes (env : Env) (token : String) (d : Decoded)
    (hempty : env.jwtDecode "" = none) (hdec : env.jwtDecode token = some d) :
    strTruthy token = true := by
  have hne : token ≠ "" := by
    intro h
    rw [h, hempty] at hdec
    exact Option.noConfusion hdec
  simp [strTruthy, hne]

theorem rehydrate_logout_result (b : Browser) :
    isAuthenticated
        ({ (logout (mount b)) with
           auth := { (logout (mount b)).auth with loading := false } } : App).auth = false
    ∧ getItem ({ (logout (mount b)) with
           auth := { (logout (mount b)).auth with loading := false } } : App
        ).browser.localStorage "token" = none
    ∧ getItem ({ (logout (mount b)) with
           auth := { (logout (mount b)).auth with loading := false } } : App
        ).browser.localStorage "user" = none :=
  ⟨rfl, getItem_cleared_token _, getItem_cleared_user _⟩

theorem rehydrate_expired (env : Env)
    (server : RequestConfig → Except AxiosError (Response ProfileBody)) (b : Browser)
    (token : String) (d : Decoded)
    (htok : getItem b.localStorage "token" = some token) (ht : strTruthy token = true)
    (hdec : env.jwtDecode token = some d) (hexp : expired d env.nowMs = true) :
    rehydrate env server b
      = ({ (logout (mount b)) with
           auth := { (logout (mount b)).auth with loading := false } }, []) := by
  simp [rehydrate, checkLoggedInTraced, mount, htok, ht, hdec, hexp]

theorem rehydrate_undecodable (env : Env)
    (server : RequestConfig → Except AxiosError (Response ProfileBody)) (b : Browser)
    (token : String)
    (htok : getItem b.localStorage "token" = some token) (ht : strTruthy token = true)
    (hdec : env.jwtDecode token = none) :
    rehydrate env server b
      = ({ (logout (mount b)) with
           auth := { (logout (mount b)).auth with loading := false } }, []) := by
  simp [rehydrate, checkLoggedInTraced, mount, htok, ht, hdec]

theorem rehydrate_fetch_ok (env : Env)
    (server : RequestConfig → Except AxiosError (Response ProfileBody)) (b : Browser)
    (token : String) (d : Decoded) (response : Response ProfileBody)
    (htok : getItem b.localStorage "token" = some token) (ht : strTruthy token = true)
    (hdec : env.jwtDecode token = some d) (hexp : expired d env.nowMs = false)
    (hok : server (requestInterceptor b profileRequest) = Except.ok response) :
    rehydrate env server b
      = ({ browser := b,
           auth := { user := some response.data.data, token := some token,
                     loading := false, error := none } },
         [requestInterceptor b profileRequest]) := by
  simp [rehydrate, checkLoggedInTraced, mount, htok, ht, hdec, hexp, authService_getProfile,
    apiRequest, hok, responseStage, responseFulfilled]

theorem rehydrate_fetch_error (env : Env)
    (server : RequestConfig → Except AxiosError (Response ProfileBody)) (b : Browser)
    (token : String) (d : Decoded) (err : AxiosError)
    (htok : getItem b.localStorage "token" = some token) (ht : strTruthy token = true)
    (hdec : env.jwtDecode token = some d) (hexp : expired d env.nowMs = false)
    (herr : server (requestInterceptor b profileRequest) = Except.error err) :
    rehydrate env server b
      = ({ (logout { (mount b) with browser := (@responseRejected ProfileBody b err).1 }) with
           auth := { user := none, token := none, loading := false, error := none } },
         [requestInterceptor b profileRequest]) := by
  have e : authService_getProfile server b
      = ((@responseRejected ProfileBody b err).1, Except.error err) := by
    simp only [authService_getProfile, apiRequest, herr, responseStage]
    unfold responseRejected
    split <;> rfl
  simp [rehydrate, checkLoggedInTraced, mount, htok, ht, hdec, hexp, e, logout]

theorem expired_of_lt (d : Decoded) (e : Int) (nowMs : Nat)
    (hexp : d.exp = some e) (hlt : (e : ℚ) < (nowMs : ℚ) / 1000) :
    expired d nowMs = true := by
  simp [expired, hexp, hlt]

theorem not_expired_of_not_lt (d : Decoded) (nowMs : Nat)
    (h : ∀ e : Int, d.exp = some e → ¬ (e : ℚ) < (nowMs : ℚ) / 1000) :
    expired d nowMs = false := by
  unfold expired
  cases hexp : d.exp with
  | none => rfl
  | some e => simpa using h e hexp

/-- C13: for every persisted token that decodes successfully with an expiry
timestamp earlier than the current time, rehydration ends with isAuthenticated
= false and with token and user removed from storage, and it sends no request
(no profile fetch).  The decoder is any function that, like jwt-decode, rejects
the empty string. -/
theorem rehydrate_expired_token_logs_out (env : Env)
    (server : RequestConfig → Except AxiosError (Response ProfileBody)) (b : Browser)
    (token : String) (d : Decoded) (e : Int)
    (hempty : env.jwtDecode "" = none)
    (htok : getItem b.localStorage "token" = some token)
    (hdec : env.jwtDecode token = some d) (hexp : d.exp = some e)
    (hlt : (e : ℚ) < (env.nowMs : ℚ) / 1000) :
    isAuthenticated (rehydrate env server b).1.auth = false
    ∧ getItem (rehydrate env server b).1.browser.localStorage "token" = none
    ∧ getItem (rehydrate env server b).1.browser.localStorage "user" = none
    ∧ (rehydrate env server b).2 = [] := by
  rw [rehydrate_expired env server b token d htok
    (token_truthy_of_decodes env token d hempty hdec) hdec (expired_of_lt d e env.nowMs hexp hlt)]
  exact ⟨rfl, getItem_cleared_token _, getItem_cleared_user _, rfl⟩

theorem rehydrate_expired_token_logs_out_witness :
    isAuthenticated (rehydrate
        { stringify := fun u => u.role,
          jwtDecode := fun t => if t = "" then none else some { exp := some 1600000000 },
          nowMs := 1700000000000 }
        (fun _ => Except.ok { status := 200, data := { data := { id := 1, role := "admin" } } })
        { localStorage := [("token", "abc"), ("user", "u1")], href := "/dashboard" }).1.auth
      = false
    ∧ getItem (rehydrate
        { stringify := fun u => u.role,
          jwtDecode := fun t => if t = "" then none else some { exp := some 1600000000 },
          nowMs := 1700000000000 }
        (fun _ => Except.ok { status := 200, data := { data := { id := 1, role := "admin" } } })
        { localStorage := [("token", "abc"), ("user", "u1")], href := "/dashboard" }
      ).1.browser.localStorage "token" = none
    ∧ getItem (rehydrate
        { stringify := fun u => u.role,
          jwtDecode := fun t => if t = "" then none else some { exp := some 1600000000 },
          nowMs := 1700000000000 }
        (fun _ => Except.ok { status := 200, data := { data := { id := 1, role := "admin" } } })
        { localStorage := [("token", "abc"), ("user", "u1")], href := "/dashboard" }
      ).1.browser.localStorage "user" = none
    ∧ (rehydrate
        { stringify := fun u => u.role,
          jwtDecode := fun t => if t = "" then none else some { exp := some 1600000000 },
          nowMs := 1700000000000 }
        (fun _ => Except.ok { status := 200, data := { data := { id := 1, role := "admin" } } })
        { localStorage := [("token", "abc"), ("user", "u1")], href := "/dashboard" }).2
      = [] :=
  rehydrate_expired_token_logs_out
    { stringify := fun u => u.role,
      jwtDecode := fun t => if t = "" then none else some { exp := some 1600000000 },
      nowMs := 1700000000000 }
    (fun _ => Except.ok { status := 200, data := { data := { id := 1, role := "admin" } } })
    { localStorage := [("token", "abc"), ("user", "u1")], href := "/dashboard" }
    "abc" { exp := some 1600000000 } 1600000000 rfl rfl rfl rfl (by norm_num)

/-- C14: for every persisted token that decodes successfully and is not expired,
rehydration sends exactly one request, the profile fetch; when the fetch
succeeds the identity is the fetched profile and the token is kept, in memory
and in storage; when it fails, whatever the error, the end state has
isAuthenticated = false and storage holds neither token nor user.  The decoder
is any function that, like jwt-decode, rejects the empty string. -/
theorem rehydrate_valid_token_fetches_profile_once (env : Env)
    (server : RequestConfig → Except AxiosError (Response ProfileBody)) (b : Browser)
    (token : String) (d : Decoded)
    (hempty : env.jwtDecode "" = none)
    (htok : getItem b.localStorage "token" = some token)
    (hdec : env.jwtDecode token = some d)
    (hnot : ∀ e : Int, d.exp = some e → ¬ (e : ℚ) < (env.nowMs : ℚ) / 1000) :
    (rehydrate env server b).2 = [requestInterceptor b profileRequest]
    ∧ (requestInterceptor b profileRequest).url = "/auth/me"
    ∧ (∀ response : Response ProfileBody,
        server (requestInterceptor b profileRequest) = Except.ok response →
        (rehydrate env server b).1.auth.user = some response.data.data
        ∧ (rehydrate env server b).1.auth.token = some token
        ∧ getItem (rehydrate env server b).1.browser.localStorage "token" = some token
        ∧ isAuthenticated (rehydrate env server b).1.auth = true)
    ∧ (∀ err : AxiosError,
        server (requestInterceptor b profileRequest) = Except.error err →
        isAuthenticated (rehydrate env server b).1.auth = false
        ∧ getItem (rehydrate env server b).1.browser.localStorage "token" = none
        ∧ getItem (rehydrate env server b).1.browser.localStorage "user" = none) := by
  have ht := token_truthy_of_decodes env token d hempty hdec
  have hexp := not_expired_of_not_lt d env.nowMs hnot
  refine ⟨?_, ?_, fun response hok => ?_, fun err herr => ?_⟩
  · cases hs : server (requestInterceptor b profileRequest) with
    | ok response => rw [rehydrate_fetch_ok env server b token d response htok ht hdec hexp hs]
    | error err => rw [rehydrate_fetch_error env server b token d err htok ht hdec hexp hs]
  · unfold requestInterceptor
    split
    · split <;> rfl
    · rfl
  · rw [rehydrate_fetch_ok env server b token d response htok ht hdec hexp hok]
    exact ⟨rfl, rfl, htok, by simpa [isAuthenticated, truthy] using ht⟩
  · rw [rehydrate_fetch_error env server b token d err htok ht hdec hexp herr]
    exact ⟨rfl, getItem_cleared_token _, getItem_cleared_user _⟩

theorem rehydrate_valid_token_fetches_profile_once_witness :
    (rehydrate
        { stringify := fun u => u.role,
          jwtDecode := fun t => if t = "" then none else some { exp := some 2000000000 },
          nowMs := 1700000000000 }
        (fun _ => Except.ok { status := 200, data := { data := { id := 1, role := "admin" } } })
        { localStorage := [("token", "abc"), ("user", "u1")], href := "/dashboard" }).2
      = [requestInterceptor
          { localStorage := [("token", "abc"), ("user", "u1")], href := "/dashboard" }
          profileRequest] :=
  (rehydrate_valid_token_fetches_profile_once
    { stringify := fun u => u.role,
      jwtDecode := fun t => if t = "" then none else some { exp := some 2000000000 },
      nowMs := 1700000000000 }
    (fun _ => Except.ok { status := 200, data := { data := { id := 1, role := "admin" } } })
    { localStorage := [("token", "abc"), ("user", "u1")], href := "/dashboard" }
    "abc" { exp := some 2000000000 } rfl rfl rfl
    (fun e he => by
      have h : e = 2000000000 := by
        simp only [Option.some.injEq] at he
        exact he.symm
      rw [h]
      norm_num)).1

/-- C15, as stated, fails: the persisted token decodes without an expiry claim
and the profile fetch succeeds; rehydration performs no logout, the token stays
in storage and isAuthenticated is true. -/
theorem rehydrate_keeps_token_without_expiry_claim :
    (fun t : String => if t = "" then none else some ({ exp := none } : Decoded)) "abc"
      = some { exp := none }
    ∧ isAuthenticated (rehydrate
        { stringify := fun u => u.role,
          jwtDecode := fun t => if t = "" then none else some { exp := none },
          nowMs := 1700000000000 }
        (fun _ => Except.ok { status := 200, data := { data := { id := 1, role := "admin" } } })
        { localStorage := [("token", "abc"), ("user", "u1")], href := "/dashboard" }).1.auth
      = true
    ∧ getItem (rehydrate
        { stringify := fun u => u.role,
          jwtDecode := fun t => if t = "" then none else some { exp := none },
          nowMs := 1700000000000 }
        (fun _ => Except.ok { status := 200, data := { data := { id := 1, role := "admin" } } })
        { localStorage := [("token", "abc"), ("user", "u1")], href := "/dashboard" }
      ).1.browser.localStorage "token" = some "abc" := by
  refine ⟨?_, ?_, ?_⟩ <;> rfl

/-- C15, amended: for every persisted token that is not the empty string and
cannot be decoded, rehydration performs logout (isAuthenticated = false, token
and user removed from storage) and sends no request; a token that decodes
without an expiry claim is treated as not expired: the profile is fetched once,
the token stays in place with isAuthenticated = true when the fetch succeeds,
and logout is performed when the fetch fails. -/
theorem rehydrate_on_verification_failure (env : Env)
    (server : RequestConfig → Except AxiosError (Response ProfileBody)) (b : Browser)
    (token : String)
    (hempty : env.jwtDecode "" = none)
    (htok : getItem b.localStorage "token" = some token) :
    (token ≠ "" → env.jwtDecode token = none →
      isAuthenticated (rehydrate env server b).1.auth = false
      ∧ getItem (rehydrate env server b).1.browser.localStorage "token" = none
      ∧ getItem (rehydrate env server b).1.browser.localStorage "user" = none
      ∧ (rehydrate env server b).2 = [])
    ∧ (∀ d : Decoded, env.jwtDecode token = some d → d.exp = none →
      (rehydrate env server b).2 = [requestInterceptor b profileRequest]
      ∧ (∀ response : Response ProfileBody,
          server (requestInterceptor b profileRequest) = Except.ok response →
          getItem (rehydrate env server b).1.browser.localStorage "token" = some token
          ∧ (rehydrate env server b).1.auth.token = some token
          ∧ isAuthenticated (rehydrate env server b).1.auth = true)
      ∧ (∀ err : AxiosError,
          server (requestInterceptor b profileRequest) = Except.error err →
          isAuthenticated (rehydrate env server b).1.auth = false
          ∧ getItem (rehydrate env server b).1.browser.localStorage "token" = none
          ∧ getItem (rehydrate env server b).1.browser.localStorage "user" = none)) := by
  refine ⟨fun hne hdec => ?_, fun d hdec hnone => ?_⟩
  · have ht : strTruthy token = true := by simp [strTruthy, hne]
    rw [rehydrate_undecodable env server b token htok ht hdec]
    exact ⟨rfl, getItem_cleared_token _, getItem_cleared_user _, rfl⟩
  · have ht := token_truthy_of_decodes env token d hempty hdec
    have hexp : expired d env.nowMs = false := by simp [expired, hnone]
    refine ⟨?_, fun response hok => ?_, fun err herr => ?_⟩
    · cases hs : server (requestInterceptor b profileRequest) with
      | ok response => rw [rehydrate_fetch_ok env server b token d response htok ht hdec hexp hs]
      | error err => rw [rehydrate_fetch_error env server b token d err htok ht hdec hexp hs]
    · rw [rehydrate_fetch_ok env server b token d response htok ht hdec hexp hok]
      exact ⟨htok, rfl, by simpa [isAuthenticated, truthy] using ht⟩
    · rw [rehydrate_fetch_error env server b token d err htok ht hdec hexp herr]
      exact ⟨rfl, getItem_cleared_token _, getItem_cleared_user _⟩

theorem rehydrate_on_verification_failure_witness :
    isAuthenticated (rehydrate
        { stringify := fun u => u.role, jwtDecode := fun _ => none, nowMs := 1700000000000 }
        (fun _ => Except.ok { status := 200, data := { data := { id := 1, role := "admin" } } })
        { localStorage := [("token", "not-a-jwt"), ("user", "u1")],
          href := "/dashboard" }).1.auth = false
    ∧ getItem (rehydrate
        { stringify := fun u => u.role, jwtDecode := fun _ => none, nowMs := 1700000000000 }
        (fun _ => Except.ok { status := 200, data := { data := { id := 1, role := "admin" } } })
        { localStorage := [("token", "not-a-jwt"), ("user", "u1")],
          href := "/dashboard" }).1.browser.localStorage "token" = none
    ∧ getItem (rehydrate
        { stringify := fun u => u.role, jwtDecode := fun _ => none, nowMs := 1700000000000 }
        (fun _ => Except.ok { status := 200, data := { data := { id := 1, role := "admin" } } })
        { localStorage := [("token", "not-a-jwt"), ("user", "u1")],
          href := "/dashboard" }).1.browser.localStorage "user" = none
    ∧ (rehydrate
        { stringify := fun u => u.role, jwtDecode := fun _ => none, nowMs := 1700000000000 }
        (fun _ => Except.ok { status := 200, data := { data := { id := 1, role := "admin" } } })
        { localStorage := [("token", "not-a-jwt"), ("user", "u1")],
          href := "/dashboard" }).2 = [] :=
  (rehydrate_on_verification_failure
    { stringify := fun u => u.role, jwtDecode := fun _ => none, nowMs := 1700000000000 }
    (fun _ => Except.ok { status := 200, data := { data := { id := 1, role := "admin" } } })
    { localStorage := [("token", "not-a-jwt"), ("user", "u1")], href := "/dashboard" }
    "not-a-jwt" rfl rfl).1 (by decide) rfl

/-! ## Theorems: the session invariant -/

theorem checkLoggedIn_start_settle (env : Env)
    (server : RequestConfig → Except AxiosError (Response ProfileBody)) (s : App) :
    checkLoggedIn env server s
      = if (checkLoggedInStart env s).2 then
          checkLoggedInSettle (server (requestInterceptor s.browser profileRequest))
            (checkLoggedInStart env s).1
        else (checkLoggedInStart env s).1 := by
  unfold checkLoggedIn checkLoggedInStart
  cases htok : s.auth.token with
  | none => simp
  | some token =>
    by_cases ht : strTruthy token = true
    · cases hd : env.jwtDecode token with
      | none => simp [ht, hd]
      | some d =>
        by_cases he : expired d env.nowMs = true
        · simp [ht, hd, he]
        · simp only [ht, hd, he, if_true, if_false, Bool.false_eq_true]
          unfold checkLoggedInSettle authService_getProfile apiRequest
          cases hr : responseStage s.browser
              (server (requestInterceptor s.browser profileRequest)) with
          | mk b1 outcome => cases outcome <;> simp [htok]
    · simp [ht]

theorem login_start_settle (env : Env)
    (server : RequestConfig → Except AxiosError (Response LoginData))
    (credentials : Credentials) (s : App) :
    login env server credentials s
      = loginSettle env (server (requestInterceptor s.browser (loginRequest credentials)))
          (loginStart s) := by
  unfold login loginSettle loginStart authService_login apiRequest
  cases hr : responseStage s.browser
      (server (requestInterceptor s.browser (loginRequest credentials))) with
  | mk b1 outcome => cases outcome <;> simp [hr]

theorem register_start_settle (env : Env)
    (server : RequestConfig → Except AxiosError (Response LoginData))
    (userData : Storage) (s : App) :
    register env server userData s
      = registerSettle env (server (requestInterceptor s.browser (registerRequest userData)))
          (loginStart s) := by
  unfold register registerSettle loginStart authService_register apiRequest
  cases hr : responseStage s.browser
      (server (requestInterceptor s.browser (registerRequest userData))) with
  | mk b1 outcome => cases outcome <;> simp [hr]

theorem sequentialRuns_runs (r : Running) (h : SequentialRuns r) : Runs r := by
  induction h with
  | initialLoad b => exact Runs.initialLoad b
  | start r r1 _ _ hstep ih => exact Runs.step r r1 ih hstep
  | answer r r1 _ hstep _ ih => exact Runs.step r r1 ih hstep

theorem checkLoggedInStart_keeps (env : Env) (s : App)
    (h : s.auth.user.isSome = true → s.auth.token.isSome = true) :
    ((checkLoggedInStart env s).1.auth.user.isSome = true →
      (checkLoggedInStart env s).1.auth.token.isSome = true)
    ∧ ((checkLoggedInStart env s).2 = true →
      (checkLoggedInStart env s).1.auth.token.isSome = true) := by
  unfold checkLoggedInStart
  cases htok : s.auth.token with
  | none => simpa [htok] using h
  | some token =>
    by_cases ht : strTruthy token = true
    · cases hd : env.jwtDecode token with
      | none => simp [ht, hd, logout]
      | some d =>
        by_cases he : expired d env.nowMs = true
        · simp [ht, hd, he, logout]
        · simp [ht, hd, he, htok]
    · simp [ht, htok]

theorem checkLoggedInSettle_keeps (outcome : Except AxiosError (Response ProfileBody))
    (s : App) (h : s.auth.token.isSome = true) :
    (checkLoggedInSettle outcome s).auth.user.isSome = true →
      (checkLoggedInSettle outcome s).auth.token.isSome = true := by
  unfold checkLoggedInSettle
  cases hr : responseStage s.browser outcome with
  | mk b1 result =>
    cases result with
    | ok response => simpa using h
    | error err => simp [logout]

theorem loginSettle_keeps (env : Env) (outcome : Except AxiosError (Response LoginData))
    (s : App) (h : s.auth.user.isSome = true → s.auth.token.isSome = true) :
    (loginSettle env outcome s).1.auth.user.isSome = true →
      (loginSettle env outcome s).1.auth.token.isSome = true := by
  unfold loginSettle
  cases hr : responseStage s.browser outcome with
  | mk b1 result =>
    cases result with
    | ok response => simp
    | error err => simpa [loginCatch] using h

theorem registerSettle_keeps (env : Env) (outcome : Except AxiosError (Response LoginData))
    (s : App) (h : s.auth.user.isSome = true → s.auth.token.isSome = true) :
    (registerSettle env outcome s).1.auth.user.isSome = true →
      (registerSettle env outcome s).1.auth.token.isSome = true := by
  unfold registerSettle
  cases hr : responseStage s.browser outcome with
  | mk b1 result =>
    cases result with
    | ok response => simp
    | error err => simpa [registerCatch] using h

theorem sequentialRuns_invariant (r : Running) (h : SequentialRuns r) :
    (r.app.auth.user.isSome = true → r.app.auth.token.isSome = true)
    ∧ (r.pending = [] ∨ r.pending = [Pending.login] ∨ r.pending = [Pending.register]
      ∨ (r.pending = [Pending.profile] ∧ r.app.auth.token.isSome = true)) := by
  induction h with
  | initialLoad b => exact ⟨fun hu => by simp [mount] at hu, Or.inl rfl⟩
  | start r r1 _ hp hstep ih =>
    obtain ⟨hinv, _⟩ := ih
    cases hstep with
    | effect env =>
      have hk := checkLoggedInStart_keeps env r.app hinv
      refine ⟨hk.1, ?_⟩
      by_cases hsent : (checkLoggedInStart env r.app).2 = true
      · right; right; right
        exact ⟨by simp [effectRuns, hsent, hp], hk.2 hsent⟩
      · left
        simp [effectRuns, hsent, hp]
    | profileAnswered outcome _ hmem => rw [hp] at hmem; simp at hmem
    | loginCalled => exact ⟨hinv, Or.inr (Or.inl (by simp [hp]))⟩
    | loginAnswered env outcome _ hmem => rw [hp] at hmem; simp at hmem
    | registerCalled => exact ⟨hinv, Or.inr (Or.inr (Or.inl (by simp [hp])))⟩
    | registerAnswered env outcome _ hmem => rw [hp] at hmem; simp at hmem
    | logoutCalled => exact ⟨fun hu => by simp [logout] at hu, Or.inl hp⟩
  | answer r r1 _ hstep hlt ih =>
    obtain ⟨hinv, hpend⟩ := ih
    cases hstep with
    | effect env =>
      exfalso
      simp only [effectRuns] at hlt
      split at hlt
      · simp at hlt
      · exact Nat.lt_irrefl _ hlt
    | profileAnswered outcome _ hmem =>
      rcases hpend with hp | hp | hp | ⟨hp, htok⟩
      · rw [hp] at hmem; simp at hmem
      · rw [hp] at hmem; simp at hmem
      · rw [hp] at hmem; simp at hmem
      · exact ⟨checkLoggedInSettle_keeps outcome r.app htok, Or.inl (by simp [hp])⟩
    | loginCalled => simp at hlt
    | loginAnswered env outcome _ hmem =>
      rcases hpend with hp | hp | hp | ⟨hp, _⟩
      · rw [hp] at hmem; simp at hmem
      · exact ⟨loginSettle_keeps env outcome r.app hinv, Or.inl (by simp [hp])⟩
      · rw [hp] at hmem; simp at hmem
      · rw [hp] at hmem; simp at hmem
    | registerCalled => simp at hlt
    | registerAnswered env outcome _ hmem =>
      rcases hpend with hp | hp | hp | ⟨hp, _⟩
      · rw [hp] at hmem; simp at hmem
      · rw [hp] at hmem; simp at hmem
      · exact ⟨registerSettle_keeps env outcome r.app hinv, Or.inl (by simp [hp])⟩
      · rw [hp] at hmem; simp at hmem
    | logoutCalled => exact absurd hlt (Nat.lt_irrefl _)

theorem sampleEnv_not_expired : expired { exp := some 2000000000 } sampleEnv.nowMs = false := by
  simp [expired, sampleEnv]; norm_num

theorem checkLoggedInStart_sends (env : Env) (s : App) (token : String) (d : Decoded)
    (htok : s.auth.token = some token) (ht : strTruthy token = true)
    (hdec : env.jwtDecode token = some d) (hexp : expired d env.nowMs = false) :
    checkLoggedInStart env s = (s, true) := by
  simp [checkLoggedInStart, htok, ht, hdec, hexp]

theorem fetchingRun_eq :
    fetchingRun = { app := loadedRun.app, pending := [Pending.profile] } := by
  have h := checkLoggedInStart_sends sampleEnv loadedRun.app "abc" { exp := some 2000000000 }
    rfl rfl rfl sampleEnv_not_expired
  unfold fetchingRun effectRuns
  rw [h]
  simp [loadedRun]

theorem rehydratedRun_sequential : SequentialRuns rehydratedRun := by
  have h1 : SequentialRuns fetchingRun :=
    SequentialRuns.start loadedRun fetchingRun (SequentialRuns.initialLoad _) rfl
      (Step.effect sampleEnv loadedRun)
  refine SequentialRuns.answer fetchingRun rehydratedRun h1
    (Step.profileAnswered sampleProfile fetchingRun ?_) ?_
  · rw [fetchingRun_eq]; simp
  · simp [rehydratedRun, fetchingRun_eq]

theorem signedInRun_runs : Runs signedInRun := by
  have h0 : Runs { app := mount { localStorage := [], href := "/login" }, pending := [] } :=
    Runs.initialLoad _
  have h1 := Runs.step _ _ h0 (Step.effect sampleEnv _)
  have h2 := Runs.step _ _ h1 (Step.loginCalled _)
  have h3 := Runs.step _ _ h2 (Step.loginAnswered sampleEnv sampleLogin _ (by decide))
  exact h3

theorem refetchingRun_eq :
    refetchingRun = { app := signedInRun.app, pending := [Pending.profile] } := by
  have h := checkLoggedInStart_sends sampleEnv signedInRun.app "abc"
    { exp := some 2000000000 } rfl rfl rfl sampleEnv_not_expired
  unfold refetchingRun effectRuns
  rw [h]
  simp [signedInRun]

theorem lateAnswerRun_runs : Runs lateAnswerRun := by
  have h4 : Runs refetchingRun := Runs.step _ _ signedInRun_runs (Step.effect sampleEnv _)
  have h5 : Runs loggedOutRun := Runs.step _ _ h4 (Step.logoutCalled _)
  refine Runs.step loggedOutRun lateAnswerRun h5
    (Step.profileAnswered sampleProfile loggedOutRun ?_)
  simp [loggedOutRun, refetchingRun_eq]

/-- C16, as stated, fails in every part.  Right after the initial load on a
storage that holds a token which decodes and is not expired, the token is
present and the identity is absent.  Once that rehydration is complete the
identity is present with the same token although, at a later time, the token is
expired: nothing but rehydration tests the expiry.  And when logout is called
while the profile request that follows a login is in flight, the late answer
sets the identity although the token is absent. -/
theorem session_invariant_counterexample :
    SequentialRuns loadedRun
    ∧ loadedRun.app.auth.token = some "abc"
    ∧ sampleEnv.jwtDecode "abc" = some { exp := some 2000000000 }
    ∧ expired { exp := some 2000000000 } sampleEnv.nowMs = false
    ∧ loadedRun.app.auth.user = none
    ∧ SequentialRuns rehydratedRun
    ∧ rehydratedRun.app.auth
      = { user := some { id := 1, role := "admin" }, token := some "abc",
          loading := false, error := none }
    ∧ expired { exp := some 2000000000 } 2100000000000 = true
    ∧ Runs lateAnswerRun
    ∧ lateAnswerRun.app.auth.user = some { id := 1, role := "admin" }
    ∧ lateAnswerRun.app.auth.token = none := by
  have hlater : expired { exp := some 2000000000 } 2100000000000 = true := by
    simp [expired]; norm_num
  refine ⟨SequentialRuns.initialLoad _, rfl, rfl, sampleEnv_not_expired, rfl,
    rehydratedRun_sequential, ?_, hlater, lateAnswerRun_runs, ?_, ?_⟩
  · simp only [rehydratedRun, fetchingRun_eq]
    rfl
  · simp only [lateAnswerRun, loggedOutRun, refetchingRun_eq]
    rfl
  · simp only [lateAnswerRun, loggedOutRun, refetchingRun_eq]
    rfl

/-- C16, amended: in every state the session store reaches through its
operations (initial load, rehydration, login, register, logout) when they do
not overlap, that is when no operation starts while a request of an earlier one
is unanswered, if the identity is present then the token is present. -/
theorem sequential_identity_needs_token (r : Running) (h : SequentialRuns r) :
    r.app.auth.user.isSome = true → r.app.auth.token.isSome = true :=
  (sequentialRuns_invariant r h).1

theorem sequential_identity_needs_token_witness :
    rehydratedRun.app.auth.user.isSome = true
    ∧ rehydratedRun.app.auth.token.isSome = true := by
  have hu : rehydratedRun.app.auth.user.isSome = true := by
    simp only [rehydratedRun, fetchingRun_eq]
    rfl
  exact ⟨hu, sequential_identity_needs_token rehydratedRun rehydratedRun_sequential hu⟩

/-! ## Theorems: the resource services -/

/-- C19, as stated, fails: in documentService the operations
updateDocumentStatus and verifyDocument both issue PUT /documents/:id/verify,
and in paymentRecordsService the operations updateRecord and
updatePaymentStatus both issue PUT /payment-records/:id. -/
theorem services_not_all_one_to_one :
    ¬ oneToOne documentService ∧ ¬ oneToOne paymentRecordsService := by
  unfold oneToOne
  constructor <;> decide

/-- C19, amended: in authService, employeeService, locationService and
helpCenterService any two distinct operations differ in HTTP method or in path
template; in documentService the only two distinct operations that issue the
same call are updateDocumentStatus and verifyDocument, and in
paymentRecordsService the only two are updateRecord and updatePaymentStatus. -/
theorem services_one_to_one_up_to_aliases :
    oneToOne authService
    ∧ oneToOne employeeService
    ∧ oneToOne locationService
    ∧ oneToOne helpCenterService
    ∧ (∀ a ∈ documentService, ∀ b ∈ documentService, a.name ≠ b.name →
        (a.method ≠ b.method ∨ a.template ≠ b.template)
        ∨ (a.name = "updateDocumentStatus" ∧ b.name = "verifyDocument")
        ∨ (a.name = "verifyDocument" ∧ b.name = "updateDocumentStatus"))
    ∧ (∀ a ∈ paymentRecordsService, ∀ b ∈ paymentRecordsService, a.name ≠ b.name →
        (a.method ≠ b.method ∨ a.template ≠ b.template)
        ∨ (a.name = "updateRecord" ∧ b.name = "updatePaymentStatus")
        ∨ (a.name = "updatePaymentStatus" ∧ b.name = "updateRecord")) := by
  unfold oneToOne
  refine ⟨?_, ?_, ?_, ?_, ?_, ?_⟩ <;> decide

/-! ## Theorems: who touches the session keys -/

theorem responseStage_keeps_browser {α : Type} (b : Browser)
    (outcome : Except AxiosError (Response α))
    (h : ∀ error : AxiosError, outcome = Except.error error → isUnauthorized error = false) :
    (responseStage b outcome).1 = b := by
  cases outcome with
  | ok response => rfl
  | error error => simp [responseStage, responseRejected, h error rfl]

theorem apiRequest_keeps_browser {α : Type}
    (server : RequestConfig → Except AxiosError (Response α)) (b : Browser)
    (config : RequestConfig) (h : neverUnauthorized server) :
    (apiRequest server b config).1 = b :=
  responseStage_keeps_browser b _ (fun error he => h _ error he)

theorem fetchLocations_keeps_browser (backend : LocationsBackend) (admin : Bool) (b : Browser)
    (hl : neverUnauthorized backend.locations) (he : neverUnauthorized backend.employees) :
    fetchLocations backend admin b = b := by
  have h1 := apiRequest_keeps_browser backend.locations b locationsRequest hl
  unfold fetchLocations
  cases hp : apiRequest backend.locations b locationsRequest with
  | mk b1 outcome =>
    rw [hp] at h1
    simp only at h1
    subst h1
    cases outcome with
    | ok response =>
      cases admin
      · simp [hp]
      · simpa [hp] using apiRequest_keeps_browser backend.employees b1 employeesRequest he
    | error error => simp [hp]

theorem handleCheckIn_storage (backend : LocationsBackend) (admin : Bool) (now : Nat)
    (location : Option Storage) (b : Browser)
    (hl : neverUnauthorized backend.locations) (he : neverUnauthorized backend.employees)
    (hi : neverUnauthorized backend.checkIn) :
    handleCheckIn backend admin now location b = b
    ∨ handleCheckIn backend admin now location b
      = { b with localStorage := setItem b.localStorage "locationStatusChanged" (toString now) }
    := by
  unfold handleCheckIn
  cases location with
  | none => exact Or.inl rfl
  | some locationData =>
    have h1 := apiRequest_keeps_browser backend.checkIn b (checkInRequest locationData) hi
    cases hp : apiRequest backend.checkIn b (checkInRequest locationData) with
    | mk b1 outcome =>
      rw [hp] at h1
      simp only at h1
      subst h1
      cases outcome with
      | ok response =>
        by_cases hs : response.data.success = true
        · right
          simp [hp, hs, fetchLocations_keeps_browser backend admin b1 hl he]
        · left
          simp [hp, hs]
      | error error =>
        left
        simp [hp]

theorem handleCheckOut_storage (backend : LocationsBackend) (admin : Bool) (now : Nat)
    (id : String) (b : Browser)
    (hl : neverUnauthorized backend.locations) (he : neverUnauthorized backend.employees)
    (ho : neverUnauthorized backend.checkOut) :
    handleCheckOut backend admin now id b = b
    ∨ handleCheckOut backend admin now id b
      = { b with localStorage := setItem b.localStorage "locationStatusChanged" (toString now) }
    := by
  unfold handleCheckOut
  have h1 := apiRequest_keeps_browser backend.checkOut b (checkOutRequest id) ho
  cases hp : apiRequest backend.checkOut b (checkOutRequest id) with
  | mk b1 outcome =>
    rw [hp] at h1
    simp only at h1
    subst h1
    cases outcome with
    | ok response =>
      by_cases hs : response.data.success = true
      · right
        simp [hp, hs, fetchLocations_keeps_browser backend admin b1 hl he]
      · left
        simp [hp, hs]
    | error error =>
      left
      simp [hp]

/-- C20, as stated, fails: the response stage of the HTTP client, which is not a
session store operation, removes the keys token and user when the error has
status 401; so does the check-in handler when its request is answered with
status 401. -/
theorem response_stage_clears_session_keys :
    getItem ({ localStorage := [("token", "abc"), ("user", "u1")],
               href := "/locations" } : Browser).localStorage "token" = some "abc"
    ∧ getItem (@responseStage Envelope
        { localStorage := [("token", "abc"), ("user", "u1")], href := "/locations" }
        (Except.error { message := "Request failed with status code 401",
                        response := some { status := 401, data := none } })
      ).1.localStorage "token" = none
    ∧ getItem (handleCheckIn
        { locations := fun _ => Except.ok { status := 200, data := { success := true } },
          employees := fun _ => Except.ok { status := 200, data := { success := true } },
          checkIn := fun _ => Except.error
            { message := "Request failed with status code 401",
              response := some { status := 401, data := none } },
          checkOut := fun _ => Except.ok { status := 200, data := { success := true } } }
        false 1700000000000 (some [("latitude", "24.86"), ("longitude", "67.00")])
        { localStorage := [("token", "abc"), ("user", "u1")], href := "/locations" }
      ).localStorage "token" = none := by
  refine ⟨?_, ?_, ?_⟩ <;> rfl

/-- C20, amended: apart from the session store operations, the keys token and
user are cleared by the response stage of the HTTP client when an error has
status 401, and by nothing else considered here: the response stage leaves the
whole browser state as it was on every other outcome, and the check-in and
check-out handlers leave both keys as they were whenever none of their requests
is answered with status 401 (their own storage write goes to the key
locationStatusChanged).  The request stage only returns a configuration. -/
theorem session_keys_untouched_without_unauthorized (backend : LocationsBackend)
    (admin : Bool) (now : Nat) (location : Option Storage) (id : String) (b : Browser)
    (hl : neverUnauthorized backend.locations) (he : neverUnauthorized backend.employees)
    (hi : neverUnauthorized backend.checkIn) (ho : neverUnauthorized backend.checkOut) :
    (∀ outcome : Except AxiosError (Response Envelope),
      (∀ error : AxiosError, outcome = Except.error error → isUnauthorized error = false) →
      (responseStage b outcome).1 = b)
    ∧ (∀ error : AxiosError, isUnauthorized error = true →
        getItem (@responseStage Envelope b (Except.error error)).1.localStorage "token" = none
        ∧ getItem (@responseStage Envelope b (Except.error error)).1.localStorage "user"
          = none)
    ∧ getItem (handleCheckIn backend admin now location b).localStorage "token"
      = getItem b.localStorage "token"
    ∧ getItem (handleCheckIn backend admin now location b).localStorage "user"
      = getItem b.localStorage "user"
    ∧ getItem (handleCheckOut backend admin now id b).localStorage "token"
      = getItem b.localStorage "token"
    ∧ getItem (handleCheckOut backend admin now id b).localStorage "user"
      = getItem b.localStorage "user" := by
  refine ⟨fun outcome h => responseStage_keeps_browser b outcome h, fun error hu => ?_,
    ?_, ?_, ?_, ?_⟩
  · show getItem (@responseRejected Envelope b error).1.localStorage "token" = none
      ∧ getItem (@responseRejected Envelope b error).1.localStorage "user" = none
    rw [responseRejected_unauthorized b error hu]
    exact ⟨getItem_cleared_token _, getItem_cleared_user _⟩
  · rcases handleCheckIn_storage backend admin now location b hl he hi with h | h <;> rw [h]
    exact getItem_setItem_ne _ _ _ _ (by decide)
  · rcases handleCheckIn_storage backend admin now location b hl he hi with h | h <;> rw [h]
    exact getItem_setItem_ne _ _ _ _ (by decide)
  · rcases handleCheckOut_storage backend admin now id b hl he ho with h | h <;> rw [h]
    exact getItem_setItem_ne _ _ _ _ (by decide)
  · rcases handleCheckOut_storage backend admin now id b hl he ho with h | h <;> rw [h]
    exact getItem_setItem_ne _ _ _ _ (by decide)

theorem session_keys_untouched_without_unauthorized_witness :
    getItem (handleCheckIn
        { locations := fun _ => Except.ok { status := 200, data := { success := true } },
          employees := fun _ => Except.ok { status := 200, data := { success := true } },
          checkIn := fun _ => Except.ok { status := 201, data := { success := true } },
          checkOut := fun _ => Except.ok { status := 200, data := { success := true } } }
        false 1700000000000 (some [("latitude", "24.86"), ("longitude", "67.00")])
        { localStorage := [("token", "abc"), ("user", "u1")], href := "/locations" }
      ).localStorage "token"
      = getItem ({ localStorage := [("token", "abc"), ("user", "u1")],
                   href := "/locations" } : Browser).localStorage "token" :=
  (session_keys_untouched_without_unauthorized
    { locations := fun _ => Except.ok { status := 200, data := { success := true } },
      employees := fun _ => Except.ok { status := 200, data := { success := true } },
      checkIn := fun _ => Except.ok { status := 201, data := { success := true } },
      checkOut := fun _ => Except.ok { status := 200, data := { success := true } } }
    false 1700000000000 (some [("latitude", "24.86"), ("longitude", "67.00")]) "loc1"
    { localStorage := [("token", "abc"), ("user", "u1")], href := "/locations" }
    (fun _ _ h => by simp at h) (fun _ _ h => by simp at h)
    (fun _ _ h => by simp at h) (fun _ _ h => by simp at h)).2.2.1

/-! ## Theorems: the list handlers of the Locations and Documents views -/

/-- C21: for every list of locations and every id, handleDeleteLocation issues
no request, and the new list is the old one without the records whose id is the
given id: a record is in it exactly when it was in the old list with another
id, the records that stay keep their number of occurrences, and they stay in
their original order. -/
theorem handleDeleteLocation_removes_locally (id : String)
    (locations : List LocationRecord) :
    (handleDeleteLocation id locations).2 = []
    ∧ (∀ loc : LocationRecord,
        loc ∈ (handleDeleteLocation id locations).1 ↔ loc ∈ locations ∧ loc.id ≠ id)
    ∧ (∀ loc : LocationRecord, loc.id ≠ id →
        (handleDeleteLocation id locations).1.count loc = locations.count loc)
    ∧ (handleDeleteLocation id locations).1.Sublist locations := by
  refine ⟨rfl, fun loc => ?_, fun loc hne => ?_, ?_⟩
  · simp [handleDeleteLocation, List.mem_filter]
  · simp only [handleDeleteLocation]
    rw [List.count_filter]
    simpa using hne
  · exact List.filter_sublist _

/-- C22, the code at the failing input: handleDeleteLocation on a list with one
record removes that record from the list of the view although it issues no
request at all, so no success response was received. -/
theorem handleDeleteLocation_changes_list_without_request :
    handleDeleteLocation "loc1"
        [ { id := "loc1", latitude := "24.86", longitude := "67.00", address := "Office",
            checkInTime := "1/1/2025, 9:00:00 AM", checkOutTime := none,
            status := "checked-in", employeeName := "Ann", employeeId := "E1" } ]
      = ([], []) := by
  decide

/-- C30: for every document list, id and status, when the request of
handleVerifyDocument is answered with success the new list is the old one
mapped document by document: a document with the given id keeps every field but
verificationStatus, which becomes the given status; every other document is
kept as it is; so the length and the order of the list are those from before. -/
theorem handleVerifyDocument_changes_only_status
    (api : RequestConfig → Except AxiosError (Response Envelope))
    (id status : String) (documents : List Document) (response : Response Envelope)
    (hok : api (verifyRequest id status) = Except.ok response)
    (hs : response.data.success = true) :
    (handleVerifyDocument api id status documents).1.length = documents.length
    ∧ (∀ (i : Nat) (doc : Document), documents[i]? = some doc →
        ∃ doc1 : Document,
          (handleVerifyDocument api id status documents).1[i]? = some doc1
          ∧ doc1.id = doc.id ∧ doc1.name = doc.name ∧ doc1.type = doc.type
          ∧ doc1.uploadDate = doc.uploadDate ∧ doc1.fileUrl = doc.fileUrl
          ∧ doc1.employeeName = doc.employeeName ∧ doc1.employeeId = doc.employeeId
          ∧ (doc.id = id → doc1.verificationStatus = status)
          ∧ (doc.id ≠ id → doc1 = doc)) := by
  have e : (handleVerifyDocument api id status documents).1
      = documents.map (fun doc =>
          if doc.id == id then { doc with verificationStatus := status } else doc) := by
    simp [handleVerifyDocument, hok, hs]
  rw [e]
  refine ⟨List.length_map _ _, fun i doc hi => ?_⟩
  refine ⟨if doc.id == id then { doc with verificationStatus := status } else doc, ?_, ?_⟩
  · simp [List.getElem?_map, hi]
  · by_cases h : doc.id = id
    · simp [h]
    · simp [h]

theorem handleVerifyDocument_changes_only_status_witness :
    (handleVerifyDocument
        (fun _ => Except.ok { status := 200, data := { success := true } })
        "d1" "verified"
        [ { id := "d1", name := "Passport", type := "ID", uploadDate := "2025-01-02",
            verificationStatus := "pending", fileUrl := "u1", employeeName := "Ann",
            employeeId := "E1" },
          { id := "d2", name := "CV", type := "Resume", uploadDate := "2025-01-03",
            verificationStatus := "pending", fileUrl := "u2", employeeName := "Bob",
            employeeId := "E2" } ]).1.length = 2 :=
  (handleVerifyDocument_changes_only_status
    (fun _ => Except.ok { status := 200, data := { success := true } })
    "d1" "verified"
    [ { id := "d1", name := "Passport", type := "ID", uploadDate := "2025-01-02",
        verificationStatus := "pending", fileUrl := "u1", employeeName := "Ann",
        employeeId := "E1" },
      { id := "d2", name := "CV", type := "Resume", uploadDate := "2025-01-03",
        verificationStatus := "pending", fileUrl := "u2", employeeName := "Bob",
        employeeId := "E2" } ]
    { status := 200, data := { success := true } } rfl rfl).1

theorem document_handlers_wait_for_success
    (api : RequestConfig → Except AxiosError (Response Envelope))
    (confirmed : Bool) (id status : String) (documents : List Document) :
    ((handleVerifyDocument api id status documents).1 ≠ documents →
      ∃ response : Response Envelope,
        api (verifyRequest id status) = Except.ok response ∧ response.data.success = true
        ∧ (handleVerifyDocument api id status documents).2 = [verifyRequest id status])
    ∧ ((handleDeleteDocument api confirmed id documents).1 ≠ documents →
      ∃ response : Response Envelope,
        api (deleteDocumentRequest id) = Except.ok response ∧ response.data.success = true
        ∧ (handleDeleteDocument api confirmed id documents).2 = [deleteDocumentRequest id])
    := by
  constructor
  · intro h
    unfold handleVerifyDocument at h ⊢
    cases hr : api (verifyRequest id status) with
    | error err => simp [hr] at h
    | ok response =>
      by_cases hs : response.data.success = true
      · exact ⟨response, rfl, hs, by simp [hs]⟩
      · simp [hr, hs] at h
  · intro h
    unfold handleDeleteDocument at h ⊢
    cases confirmed with
    | false => simp at h
    | true =>
      cases hr : api (deleteDocumentRequest id) with
      | error err => simp [hr] at h
      | ok response =>
        by_cases hs : response.data.success = true
        · exact ⟨response, rfl, hs, by simp [hs]⟩
        · simp [hr, hs] at h

/-! ## Theorems: creating a help ticket -/

theorem dropWhile_eq_nil_iff_all {α : Type} (p : α → Bool) (l : List α) :
    l.dropWhile p = [] ↔ l.all p = true := by
  induction l with
  | nil => simp
  | cons a l ih =>
    by_cases h : p a = true
    · simp [List.dropWhile_cons, h, ih]
    · simp [List.dropWhile_cons, h]

theorem dropWhile_all_iff {α : Type} (p : α → Bool) (l : List α) :
    (l.dropWhile p).all p = true ↔ l.all p = true := by
  induction l with
  | nil => simp
  | cons a l ih =>
    by_cases h : p a = true
    · simp [List.dropWhile_cons, h, ih]
    · simp [List.dropWhile_cons, h]

theorem jsTrim_falsy_iff (s : String) :
    strTruthy (jsTrim s) = false ↔ s.data.all isJsWhitespace = true := by
  have h1 : strTruthy (jsTrim s) = false
      ↔ ((s.data.dropWhile isJsWhitespace).reverse.dropWhile isJsWhitespace).reverse = [] := by
    unfold strTruthy jsTrim
    rw [bne_eq_false_iff_eq]
    constructor
    · intro h
      have := congrArg String.data h
      simpa using this
    · intro h
      rw [h]
  rw [h1, List.reverse_eq_nil_iff, dropWhile_eq_nil_iff_all, List.all_reverse,
    dropWhile_all_iff]

/-- C23: for every help-ticket form whose subject or message is empty or made
of whitespace only, handleCreateTicket issues no request and leaves the view
(the form data and the ticket list with it) as it was; and whenever it issues a
request, both fields contain a character that is not whitespace. -/
theorem handleCreateTicket_validates_before_request
    (createApi : RequestConfig → Except AxiosError (Response Envelope))
    (listApi : RequestConfig → Except AxiosError (Response TicketsBody))
    (v : HelpCenterView) :
    ((v.formData.subject.data.all isJsWhitespace = true
        ∨ v.formData.message.data.all isJsWhitespace = true) →
      handleCreateTicket createApi listApi v = (v, []))
    ∧ ((handleCreateTicket createApi listApi v).2 ≠ [] →
      (∃ c ∈ v.formData.subject.data, isJsWhitespace c = false)
      ∧ (∃ c ∈ v.formData.message.data, isJsWhitespace c = false)) := by
  constructor
  · intro h
    have hb : (!strTruthy (jsTrim v.formData.subject)
        || !strTruthy (jsTrim v.formData.message)) = true := by
      rcases h with h | h
      · simp [(jsTrim_falsy_iff _).mpr h]
      · simp [(jsTrim_falsy_iff _).mpr h]
    simp only [handleCreateTicket, hb, if_true]
  · intro h
    by_cases hb : (!strTruthy (jsTrim v.formData.subject)
        || !strTruthy (jsTrim v.formData.message)) = true
    · simp [handleCreateTicket, hb] at h
    · have hs : ¬ strTruthy (jsTrim v.formData.subject) = false := by
        intro hf; apply hb; simp [hf]
      have hm : ¬ strTruthy (jsTrim v.formData.message) = false := by
        intro hf; apply hb; simp [hf]
      rw [jsTrim_falsy_iff] at hs hm
      constructor
      · simpa using hs
      · simpa using hm

/-! ## Theorems: the Login view and a 401 -/

/-- C24, as stated, fails: the login request is answered with status 401 and the
message "Invalid credentials"; the inline error of the Login view was not set
before handleSubmit and holds that message after it. -/
theorem handleSubmit_sets_inline_error_on_unauthorized :
    (handleSubmit { stringify := fun u => u.role, jwtDecode := fun _ => none, nowMs := 0 }
        (fun _ => Except.error
          { message := "Request failed with status code 401",
            response := some { status := 401,
                               data := some { error := some "Invalid credentials" } } })
        { email := "a@b.com", password := "wrong-password" }
        { browser := { localStorage := [], href := "/login" },
          auth := { user := none, token := none, loading := false, error := none } }
        { error := none, submitting := true }).2.error
      = some "Invalid credentials" := by
  rfl

/-- C24, amended: for every login attempt whose request is answered with status
401, login returns a failure with a message and handleSubmit sets the inline
error state of the Login view to that message; by then the response stage has
removed token and user from storage and set the location to /login. -/
theorem handleSubmit_on_unauthorized (env : Env)
    (server : RequestConfig → Except AxiosError (Response LoginData))
    (values : Credentials) (s : App) (v : LoginView) (err : AxiosError) (r : ErrorResponse)
    (h : server (requestInterceptor s.browser (loginRequest values)) = Except.error err)
    (hr : err.response = some r) (hs : r.status = 401) :
    (∃ m : String,
      (login env server values s).2 = Except.ok { success := false, error := some m }
      ∧ (handleSubmit env server values s v).2.error = some m)
    ∧ (handleSubmit env server values s v).1.browser.href = "/login"
    ∧ getItem (handleSubmit env server values s v).1.browser.localStorage "token" = none
    ∧ getItem (handleSubmit env server values s v).1.browser.localStorage "user" = none := by
  have hu := isUnauthorized_of_status err r hr hs
  have e := login_rejected env server values s err h
  have hb := @responseRejected_unauthorized LoginData s.browser err hu
  unfold handleSubmit
  rw [e]
  simp only [loginCatch, hb]
  refine ⟨⟨_, rfl, ?_⟩, ?_, ?_, ?_⟩
  · simp
  · simp
  · simpa using getItem_cleared_token s.browser.localStorage
  · simpa using getItem_cleared_user s.browser.localStorage

theorem handleSubmit_on_unauthorized_witness :
    (handleSubmit { stringify := fun u => u.role, jwtDecode := fun _ => none, nowMs := 0 }
        (fun _ => Except.error
          { message := "Request failed with status code 401",
            response := some { status := 401, data := none } })
        { email := "a@b.com", password := "wrong-password" }
        { browser := { localStorage := [("token", "abc")], href := "/login" },
          auth := { user := none, token := some "abc", loading := false, error := none } }
        { error := none, submitting := true }).1.browser.href = "/login" :=
  (handleSubmit_on_unauthorized
    { stringify := fun u => u.role, jwtDecode := fun _ => none, nowMs := 0 }
    (fun _ => Except.error
      { message := "Request failed with status code 401",
        response := some { status := 401, data := none } })
    { email := "a@b.com", password := "wrong-password" }
    { browser := { localStorage := [("token", "abc")], href := "/login" },
      auth := { user := none, token := some "abc", loading := false, error := none } }
    { error := none, submitting := true }
    { message := "Request failed with status code 401",
      response := some { status := 401, data := none } }
    { status := 401, data := none } rfl rfl rfl).2.1

/-! ## Theorems: filtering and sorting the documents -/

theorem arraySort_perm {α : Type} (comparefn : α → α → Int) (l : List α) :
    (arraySort comparefn l).Perm l :=
  List.mergeSort_perm l _

theorem compareValues_asc_le {κ : Type} [LinearOrder κ] (aValue bValue : κ) :
    compareValues "asc" aValue bValue ≤ 0 ↔ aValue ≤ bValue := by
  unfold compareValues
  by_cases h : aValue > bValue
  · simp [h, not_le.mpr h]
  · simp [h, not_lt.mp h]

theorem compareValues_desc_le {κ : Type} [LinearOrder κ] (sortOrder : String)
    (hne : sortOrder ≠ "asc") (aValue bValue : κ) :
    compareValues sortOrder aValue bValue ≤ 0 ↔ bValue ≤ aValue := by
  unfold compareValues
  by_cases h : aValue < bValue
  · simp [hne, h, not_le.mpr h]
  · simp [hne, h, not_lt.mp h]

theorem arraySort_pairwise_of_key {α κ : Type} [LinearOrder κ] (comparefn : α → α → Int)
    (key : α → κ) (hle : ∀ a b : α, comparefn a b ≤ 0 ↔ key a ≤ key b) (l : List α) :
    (arraySort comparefn l).Pairwise (fun a b => key a ≤ key b) := by
  have hs : (l.mergeSort (fun a b => decide (comparefn a b ≤ 0))).Pairwise
      (fun a b => decide (comparefn a b ≤ 0) = true) :=
    List.sorted_mergeSort
      (fun a b c hab hbc => by
        simp only [decide_eq_true_eq, hle] at hab hbc ⊢
        exact le_trans hab hbc)
      (fun a b => by
        simp only [Bool.or_eq_true, decide_eq_true_eq, hle]
        exact le_total _ _) l
  unfold arraySort
  exact hs.imp (fun h => by simpa [hle] using h)

theorem documentMatches_iff (builtins : Builtins) (filters : DocumentFilters)
    (doc : Document) :
    documentMatches builtins filters doc = true
      ↔ (filters.status = "all" ∨ doc.verificationStatus = filters.status)
        ∧ (filters.type = "all" ∨ doc.type = filters.type)
        ∧ (filters.employee = "all"
          ∨ (builtins.toLowerCase filters.employee).data
              <:+: (builtins.toLowerCase doc.employeeName).data) := by
  simp [documentMatches, includes, and_assoc]

/-- C25: for an admin, a document is in the list getFilteredAndSortedDocuments
returns exactly when it is in the input and passes the three filters (status
'all' or equal to its verificationStatus, type 'all' or equal to its type,
employee 'all' or, lower-cased, a substring of its lower-cased employeeName);
a document that passes occurs as often as in the input; with the three filters
'all' the result is a permutation of the input; for a non-admin the input list
is returned as it is. -/
theorem getFilteredAndSortedDocuments_keeps_matching (builtins : Builtins)
    (documents : List Document) (filters : DocumentFilters) (sortBy : SortField)
    (sortOrder : String) :
    (∀ doc : Document,
      doc ∈ getFilteredAndSortedDocuments builtins true documents filters sortBy sortOrder
        ↔ doc ∈ documents
          ∧ (filters.status = "all" ∨ doc.verificationStatus = filters.status)
          ∧ (filters.type = "all" ∨ doc.type = filters.type)
          ∧ (filters.employee = "all"
            ∨ (builtins.toLowerCase filters.employee).data
                <:+: (builtins.toLowerCase doc.employeeName).data))
    ∧ (∀ doc : Document,
        (filters.status = "all" ∨ doc.verificationStatus = filters.status) →
        (filters.type = "all" ∨ doc.type = filters.type) →
        (filters.employee = "all"
          ∨ (builtins.toLowerCase filters.employee).data
              <:+: (builtins.toLowerCase doc.employeeName).data) →
        (getFilteredAndSortedDocuments builtins true documents filters sortBy
            sortOrder).count doc
          = documents.count doc)
    ∧ (filters.status = "all" → filters.type = "all" → filters.employee = "all" →
        (getFilteredAndSortedDocuments builtins true documents filters sortBy
            sortOrder).Perm documents)
    ∧ getFilteredAndSortedDocuments builtins false documents filters sortBy sortOrder
      = documents := by
  have e : getFilteredAndSortedDocuments builtins true documents filters sortBy sortOrder
      = arraySort (compareDocuments builtins sortBy sortOrder)
          (documents.filter (documentMatches builtins filters)) := by
    simp [getFilteredAndSortedDocuments]
  have hp := arraySort_perm (compareDocuments builtins sortBy sortOrder)
    (documents.filter (documentMatches builtins filters))
  refine ⟨fun doc => ?_, fun doc h1 h2 h3 => ?_, fun h1 h2 h3 => ?_, ?_⟩
  · rw [e, hp.mem_iff, List.mem_filter, documentMatches_iff]
  · rw [e, hp.count_eq, List.count_filter]
    exact (documentMatches_iff builtins filters doc).mpr ⟨h1, h2, h3⟩
  · rw [e]
    refine hp.trans (List.Perm.of_eq ?_)
    rw [List.filter_eq_self]
    intro doc _
    exact (documentMatches_iff builtins filters doc).mpr ⟨Or.inl h1, Or.inl h2, Or.inl h3⟩
  · simp [getFilteredAndSortedDocuments]

/-- C26: for an admin, the list getFilteredAndSortedDocuments returns is in the
order of the selected key, also among documents that share a key: with sortOrder
'asc' every adjacent pair a, b has key(a) <= key(b), with any other sortOrder
key(a) >= key(b); the key of uploadDate is the time value of the date, the key
of every other field is the lower-cased string, compared code unit by code
unit. -/
theorem getFilteredAndSortedDocuments_is_ordered (builtins : Builtins)
    (documents : List Document) (filters : DocumentFilters) (sortBy : SortField)
    (sortOrder : String) :
    (sortOrder = "asc" → sortBy = SortField.uploadDate →
      (getFilteredAndSortedDocuments builtins true documents filters sortBy sortOrder).Chain'
        (fun a b => builtins.dateValue a.uploadDate ≤ builtins.dateValue b.uploadDate))
    ∧ (sortOrder = "asc" → sortBy ≠ SortField.uploadDate →
      (getFilteredAndSortedDocuments builtins true documents filters sortBy sortOrder).Chain'
        (fun a b => utf16 (builtins.toLowerCase (sortBy.get a))
          ≤ utf16 (builtins.toLowerCase (sortBy.get b))))
    ∧ (sortOrder ≠ "asc" → sortBy = SortField.uploadDate →
      (getFilteredAndSortedDocuments builtins true documents filters sortBy sortOrder).Chain'
        (fun a b => builtins.dateValue a.uploadDate ≥ builtins.dateValue b.uploadDate))
    ∧ (sortOrder ≠ "asc" → sortBy ≠ SortField.uploadDate →
      (getFilteredAndSortedDocuments builtins true documents filters sortBy sortOrder).Chain'
        (fun a b => utf16 (builtins.toLowerCase (sortBy.get a))
          ≥ utf16 (builtins.toLowerCase (sortBy.get b)))) := by
  have e : getFilteredAndSortedDocuments builtins true documents filters sortBy sortOrder
      = arraySort (compareDocuments builtins sortBy sortOrder)
          (documents.filter (documentMatches builtins filters)) := by
    simp [getFilteredAndSortedDocuments]
  rw [e]
  refine ⟨fun ho hf => ?_, fun ho hf => ?_, fun ho hf => ?_, fun ho hf => ?_⟩
  · subst ho; subst hf
    exact (arraySort_pairwise_of_key _ (fun d : Document => builtins.dateValue d.uploadDate)
      (fun a b => by
        simp only [compareDocuments, if_true, SortField.get]
        exact compareValues_asc_le _ _) _).chain'
  · subst ho
    exact (arraySort_pairwise_of_key _
      (fun d : Document => utf16 (builtins.toLowerCase (sortBy.get d)))
      (fun a b => by
        simp only [compareDocuments, hf, if_false]
        exact compareValues_asc_le _ _) _).chain'
  · subst hf
    exact (arraySort_pairwise_of_key _
      (fun d : Document => OrderDual.toDual (builtins.dateValue d.uploadDate))
      (fun a b => by
        simp only [compareDocuments, if_true, SortField.get]
        exact compareValues_desc_le sortOrder ho _ _) _).chain'
  · exact (arraySort_pairwise_of_key _
      (fun d : Document => OrderDual.toDual (utf16 (builtins.toLowerCase (sortBy.get d))))
      (fun a b => by
        simp only [compareDocuments, hf, if_false]
        exact compareValues_desc_le sortOrder ho _ _) _).chain'

/-! ## Theorems: the overtime object of a payment record -/

/-- C27: for every payment form that passes the required-field check of
handleCreateRecord, the overtime object it sends has hours and rate equal to
the parsed form values, with 0 for a value that parses to a falsy number (NaN
for a blank or non-numeric value), and amount equal to the product of these two;
the form's own overtime.amount has no influence on it; and handleUpdateRecord
sends the same overtime object for the same form. -/
theorem overtime_amount_is_hours_times_rate {F : Type} (arith : Arith F)
    (formData : PaymentForm)
    (he : formData.employeeId ≠ "") (hstart : formData.weekStartDate ≠ none)
    (hend : formData.weekEndDate ≠ none) (hb : formData.basicSalary ≠ "") :
    ∃ (created : CreateRecordData F) (updated : UpdateRecordData F),
      handleCreateRecord arith formData = some created
      ∧ handleUpdateRecord arith formData = some updated
      ∧ created.overtime.hours
        = (if arith.falsy (arith.parseFloat formData.overtime.hours) then arith.zero
           else arith.parseFloat formData.overtime.hours)
      ∧ created.overtime.rate
        = (if arith.falsy (arith.parseFloat formData.overtime.rate) then arith.zero
           else arith.parseFloat formData.overtime.rate)
      ∧ created.overtime.amount = arith.mul created.overtime.hours created.overtime.rate
      ∧ (∀ amount : String,
          (handleCreateRecord arith
              { formData with overtime := { formData.overtime with amount := amount } }).map
            (fun body => body.overtime)
          = some created.overtime)
      ∧ updated.overtime = created.overtime := by
  have hcheck : ∀ overtime : OvertimeForm,
      (!strTruthy ({ formData with overtime := overtime } : PaymentForm).employeeId
        || ({ formData with overtime := overtime } : PaymentForm).weekStartDate.isNone
        || ({ formData with overtime := overtime } : PaymentForm).weekEndDate.isNone
        || !strTruthy ({ formData with overtime := overtime } : PaymentForm).basicSalary)
      = false := by
    intro overtime
    cases hs : formData.weekStartDate with
    | none => exact absurd hs hstart
    | some ws =>
      cases hw : formData.weekEndDate with
      | none => exact absurd hw hend
      | some we => simp [strTruthy, he, hb, hs, hw]
  have hupdate : (!strTruthy formData.basicSalary) = false := by simp [strTruthy, hb]
  have hc := hcheck formData.overtime
  refine ⟨
    { employeeId := formData.employeeId,
      weekStartDate := formData.weekStartDate,
      weekEndDate := formData.weekEndDate,
      basicSalary := arith.parseFloat formData.basicSalary,
      overtime :=
        { hours := parseOrZero arith formData.overtime.hours,
          rate := parseOrZero arith formData.overtime.rate,
          amount := arith.mul (parseOrZero arith formData.overtime.hours)
            (parseOrZero arith formData.overtime.rate) },
      bonuses := formData.bonuses.map (fun bonus =>
        { description := bonus.description, amount := arith.parseFloat bonus.amount }),
      deductions := formData.deductions.map (fun deduction =>
        { description := deduction.description,
          amount := arith.parseFloat deduction.amount }),
      paymentMethod := formData.paymentMethod,
      notes := formData.notes },
    { basicSalary := arith.parseFloat formData.basicSalary,
      overtime :=
        { hours := parseOrZero arith formData.overtime.hours,
          rate := parseOrZero arith formData.overtime.rate,
          amount := arith.mul (parseOrZero arith formData.overtime.hours)
            (parseOrZero arith formData.overtime.rate) },
      bonuses := formData.bonuses.map (fun bonus =>
        { description := bonus.description, amount := arith.parseFloat bonus.amount }),
      deductions := formData.deductions.map (fun deduction =>
        { description := deduction.description,
          amount := arith.parseFloat deduction.amount }),
      paymentMethod := formData.paymentMethod,
      notes := formData.notes },
    ?_, ?_, rfl, rfl, rfl, fun amount => ?_, rfl⟩
  · unfold handleCreateRecord
    rw [if_neg (fun h => Bool.false_ne_true (hc.symm.trans h))]
  · unfold handleUpdateRecord
    rw [if_neg (fun h => Bool.false_ne_true (hupdate.symm.trans h))]
  · have ha := hcheck { formData.overtime with amount := amount }
    unfold handleCreateRecord
    rw [if_neg (fun h => Bool.false_ne_true (ha.symm.trans h))]
    rfl

theorem overtime_amount_is_hours_times_rate_witness :
    ∃ (created : CreateRecordData Int) (updated : UpdateRecordData Int),
      handleCreateRecord
          { parseFloat := fun x => (x.length : Int), falsy := fun n => n == 0, zero := 0,
            mul := fun a b => a * b }
          { employeeId := "E1", weekStartDate := some "2025-01-06",
            weekEndDate := some "2025-01-12", basicSalary := "500",
            overtime := { hours := "4", rate := "15", amount := "" },
            bonuses := [], deductions := [], paymentMethod := "bank_transfer", notes := "" }
        = some created
      ∧ handleUpdateRecord
          { parseFloat := fun x => (x.length : Int), falsy := fun n => n == 0, zero := 0,
            mul := fun a b => a * b }
          { employeeId := "E1", weekStartDate := some "2025-01-06",
            weekEndDate := some "2025-01-12", basicSalary := "500",
            overtime := { hours := "4", rate := "15", amount := "" },
            bonuses := [], deductions := [], paymentMethod := "bank_transfer", notes := "" }
        = some updated
      ∧ created.overtime.amount = created.overtime.hours * created.overtime.rate
      ∧ updated.overtime = created.overtime := by
  obtain ⟨created, updated, h1, h2, _, _, h5, _, h7⟩ :=
    overtime_amount_is_hours_times_rate
      { parseFloat := fun x => (x.length : Int), falsy := fun n => n == 0, zero := 0,
        mul := fun a b => a * b }
      { employeeId := "E1", weekStartDate := some "2025-01-06",
        weekEndDate := some "2025-01-12", basicSalary := "500",
        overtime := { hours := "4", rate := "15", amount := "" },
        bonuses := [], deductions := [], paymentMethod := "bank_transfer", notes := "" }
      (by decide) (by decide) (by decide) (by decide)
  exact ⟨created, updated, h1, h2, h5, h7⟩

/-! ## Theorems: the dashboard statistics -/

theorem countStatus_cons (status : String) (doc : DashboardDocument)
    (documents : List DashboardDocument) :
    countStatus status (doc :: documents)
      = (if doc.verificationStatus = some status then 1 else 0)
        + countStatus status documents := by
  unfold countStatus
  by_cases h : doc.verificationStatus = some status
  · simp [List.filter_cons, h, Nat.add_comm]
  · simp [List.filter_cons, h]

theorem status_counts (documents : List DashboardDocument) :
    countStatus "pending" documents + countStatus "verified" documents
        + countStatus "rejected" documents ≤ documents.length
    ∧ (countStatus "pending" documents + countStatus "verified" documents
        + countStatus "rejected" documents = documents.length
      ↔ ∀ doc ∈ documents,
          doc.verificationStatus = some "pending" ∨ doc.verificationStatus = some "verified"
          ∨ doc.verificationStatus = some "rejected") := by
  induction documents with
  | nil => simp [countStatus]
  | cons doc documents ih =>
    obtain ⟨hle, hiff⟩ := ih
    rw [countStatus_cons, countStatus_cons, countStatus_cons, List.length_cons,
      List.forall_mem_cons]
    by_cases hp : doc.verificationStatus = some "pending"
    · have hv : ¬ doc.verificationStatus = some "verified" := by rw [hp]; decide
      have hr : ¬ doc.verificationStatus = some "rejected" := by rw [hp]; decide
      rw [if_pos hp, if_neg hv, if_neg hr]
      refine ⟨by omega, fun h => ⟨Or.inl hp, hiff.mp (by omega)⟩, fun h => ?_⟩
      have := hiff.mpr h.2
      omega
    · by_cases hv : doc.verificationStatus = some "verified"
      · have hr : ¬ doc.verificationStatus = some "rejected" := by rw [hv]; decide
        rw [if_neg hp, if_pos hv, if_neg hr]
        refine ⟨by omega, fun h => ⟨Or.inr (Or.inl hv), hiff.mp (by omega)⟩, fun h => ?_⟩
        have := hiff.mpr h.2
        omega
      · by_cases hr : doc.verificationStatus = some "rejected"
        · rw [if_neg hp, if_neg hv, if_pos hr]
          refine ⟨by omega, fun h => ⟨Or.inr (Or.inr hr), hiff.mp (by omega)⟩, fun h => ?_⟩
          have := hiff.mpr h.2
          omega
        · rw [if_neg hp, if_neg hv, if_neg hr]
          refine ⟨by omega, fun h => by omega, fun h => ?_⟩
          rcases h.1 with h1 | h1 | h1
          · exact absurd h1 hp
          · exact absurd h1 hv
          · exact absurd h1 hr

/-- C28: for every document list the dashboard fetches, the statistics it
computes have totalDocuments equal to the length of the list and pending +
verified + rejected at most totalDocuments, with equality exactly when the
verificationStatus of every document is 'pending', 'verified' or 'rejected';
the admin branch and the employee branch compute the same four document
counts. -/
theorem dashboard_document_counts (admin : Bool)
    (employeesRes : Response (ListBody Unit))
    (documentsRes : Response (ListBody DashboardDocument))
    (locationsRes : Response (ListBody Unit)) (stats : Stats) :
    (fetchDashboardData admin (Except.ok employeesRes) (Except.ok documentsRes)
        (Except.ok locationsRes) stats).totalDocuments
      = (documentsRes.data.data.getD []).length
    ∧ (fetchDashboardData admin (Except.ok employeesRes) (Except.ok documentsRes)
        (Except.ok locationsRes) stats).pendingDocuments
      + (fetchDashboardData admin (Except.ok employeesRes) (Except.ok documentsRes)
        (Except.ok locationsRes) stats).verifiedDocuments
      + (fetchDashboardData admin (Except.ok employeesRes) (Except.ok documentsRes)
        (Except.ok locationsRes) stats).rejectedDocuments
      ≤ (fetchDashboardData admin (Except.ok employeesRes) (Except.ok documentsRes)
        (Except.ok locationsRes) stats).totalDocuments
    ∧ ((fetchDashboardData admin (Except.ok employeesRes) (Except.ok documentsRes)
        (Except.ok locationsRes) stats).pendingDocuments
      + (fetchDashboardData admin (Except.ok employeesRes) (Except.ok documentsRes)
        (Except.ok locationsRes) stats).verifiedDocuments
      + (fetchDashboardData admin (Except.ok employeesRes) (Except.ok documentsRes)
        (Except.ok locationsRes) stats).rejectedDocuments
      = (fetchDashboardData admin (Except.ok employeesRes) (Except.ok documentsRes)
        (Except.ok locationsRes) stats).totalDocuments
      ↔ ∀ doc ∈ documentsRes.data.data.getD [],
          doc.verificationStatus = some "pending" ∨ doc.verificationStatus = some "verified"
          ∨ doc.verificationStatus = some "rejected")
    ∧ (fetchDashboardData true (Except.ok employeesRes) (Except.ok documentsRes)
        (Except.ok locationsRes) stats).totalDocuments
      = (fetchDashboardData false (Except.ok employeesRes) (Except.ok documentsRes)
        (Except.ok locationsRes) stats).totalDocuments
    ∧ (fetchDashboardData true (Except.ok employeesRes) (Except.ok documentsRes)
        (Except.ok locationsRes) stats).pendingDocuments
      = (fetchDashboardData false (Except.ok employeesRes) (Except.ok documentsRes)
        (Except.ok locationsRes) stats).pendingDocuments
    ∧ (fetchDashboardData true (Except.ok employeesRes) (Except.ok documentsRes)
        (Except.ok locationsRes) stats).verifiedDocuments
      = (fetchDashboardData false (Except.ok employeesRes) (Except.ok documentsRes)
        (Except.ok locationsRes) stats).verifiedDocuments
    ∧ (fetchDashboardData true (Except.ok employeesRes) (Except.ok documentsRes)
        (Except.ok locationsRes) stats).rejectedDocuments
      = (fetchDashboardData false (Except.ok employeesRes) (Except.ok documentsRes)
        (Except.ok locationsRes) stats).rejectedDocuments := by
  have h := status_counts (documentsRes.data.data.getD [])
  cases admin
  · exact ⟨rfl, h.1, h.2, rfl, rfl, rfl, rfl⟩
  · exact ⟨rfl, h.1, h.2, rfl, rfl, rfl, rfl⟩

/-! ## Theorems: the sidebar and the gate -/

theorem routes_of_unlisted (ctx : AuthContextValue) (path : String)
    (h1 : path ≠ "/login") (h2 : path ≠ "/dashboard") (h3 : path ≠ "/profile")
    (h4 : path ≠ "/documents") (h5 : path ≠ "/locations") (h6 : path ≠ "/help-center")
    (h7 : path ≠ "/payment-records") (h8 : path ≠ "/my-payments")
    (h9 : path ≠ "/employees") (h10 : path ≠ "/") (h11 : path ≠ "/unauthorized") :
    routes ctx path = Screen.page Page.NotFound := by
  simp [routes, h1, h2, h3, h4, h5, h6, h7, h8, h9, h10, h11]

/-- C29: for every authenticated session, admin or not, every path of menuItems
is a route on which the gate renders the page (no redirect, no fallback page);
/employees is listed exactly when isAdmin is true; and /employees is the only
path on which the gate sends an authenticated non-admin to /unauthorized. -/
theorem menuItems_pass_the_gate (admin : Bool) :
    (∀ item ∈ menuItems admin,
      ∃ page : Page,
        routes { isAuthenticated := true, isAdmin := admin, loading := false } item.path
          = Screen.page page
        ∧ page ≠ Page.NotFound ∧ page ≠ Page.Unauthorized ∧ page ≠ Page.Login)
    ∧ ((∃ item ∈ menuItems admin, item.path = "/employees") ↔ admin = true)
    ∧ (∀ path : String,
        routes { isAuthenticated := true, isAdmin := false, loading := false } path
          = Screen.redirect "/unauthorized"
        ↔ path = "/employees") := by
  refine ⟨?_, ?_, fun path => ?_⟩
  · cases admin
    · intro item hitem
      simp only [menuItems, Bool.false_eq_true, if_false, List.append_nil, List.cons_append,
        List.nil_append, List.mem_cons, List.mem_singleton, List.not_mem_nil, or_false]
        at hitem
      rcases hitem with rfl | rfl | rfl | rfl | rfl
      · exact ⟨Page.Dashboard, rfl, by decide, by decide, by decide⟩
      · exact ⟨Page.Documents, rfl, by decide, by decide, by decide⟩
      · exact ⟨Page.Locations, rfl, by decide, by decide, by decide⟩
      · exact ⟨Page.HelpCenter, rfl, by decide, by decide, by decide⟩
      · exact ⟨Page.EmployeePayments, rfl, by decide, by decide, by decide⟩
    · intro item hitem
      simp only [menuItems, if_true, List.cons_append, List.nil_append, List.mem_cons,
        List.mem_singleton, List.not_mem_nil, or_false] at hitem
      rcases hitem with rfl | rfl | rfl | rfl | rfl | rfl
      · exact ⟨Page.Dashboard, rfl, by decide, by decide, by decide⟩
      · exact ⟨Page.Employees, rfl, by decide, by decide, by decide⟩
      · exact ⟨Page.Documents, rfl, by decide, by decide, by decide⟩
      · exact ⟨Page.Locations, rfl, by decide, by decide, by decide⟩
      · exact ⟨Page.HelpCenter, rfl, by decide, by decide, by decide⟩
      · exact ⟨Page.PaymentRecords, rfl, by decide, by decide, by decide⟩
  · cases admin
    · constructor
      · rintro ⟨item, hitem, hpath⟩
        simp only [menuItems, Bool.false_eq_true, if_false, List.append_nil,
          List.cons_append, List.nil_append, List.mem_cons, List.mem_singleton,
          List.not_mem_nil, or_false] at hitem
        rcases hitem with rfl | rfl | rfl | rfl | rfl <;> exact absurd hpath (by decide)
      · intro h
        exact absurd h (by decide)
    · constructor
      · intro _
        rfl
      · intro _
        exact ⟨{ text := "Employees", path := "/employees", color := "#8b5cf6" },
          by simp [menuItems], rfl⟩
  · constructor
    · intro h
      by_contra h9
      by_cases h1 : path = "/login"
      · subst h1; exact absurd h (by decide)
      by_cases h2 : path = "/dashboard"
      · subst h2; exact absurd h (by decide)
      by_cases h3 : path = "/profile"
      · subst h3; exact absurd h (by decide)
      by_cases h4 : path = "/documents"
      · subst h4; exact absurd h (by decide)
      by_cases h5 : path = "/locations"
      · subst h5; exact absurd h (by decide)
      by_cases h6 : path = "/help-center"
      · subst h6; exact absurd h (by decide)
      by_cases h7 : path = "/payment-records"
      · subst h7; exact absurd h (by decide)
      by_cases h8 : path = "/my-payments"
      · subst h8; exact absurd h (by decide)
      by_cases h10 : path = "/"
      · subst h10; exact absurd h (by decide)
      by_cases h11 : path = "/unauthorized"
      · subst h11; exact absurd h (by decide)
      rw [routes_of_unlisted _ path h1 h2 h3 h4 h5 h6 h7 h8 h9 h10 h11] at h
      exact absurd h (by decide)
    · intro h
      subst h
      decide

end EMS
